import Mathlib

/-!
# gr-ieee80211: codec utilities, rate catalog and DSSS test properties

A shallow embedding of the parts of `gr-ieee80211` that the verified
properties are about.

* `gr::ieee80211::utils` (`include/gnuradio/ieee80211/utils.h`): the header
  holds the declarations and the inline `descramble`; the bodies of
  `scramble`, `calc_fcs`, `validate_fcs`, `extract_fcs`, `crc32_byte`,
  `calc_plcp_crc16` and `validate_plcp_crc16` are modelled from the
  specification and marked so.
* `gr::ieee80211` rate catalog (`lib/wifi_rates.cc`, `wifi_rates.h`).
* the Barker-11 correlation loop of `lib/dsss/qa_dsss.cc`.
* `chip_sync_c::make` (declaration only; the factory is modelled from the
  specification).

Bytes (`uint8_t`) and machine words are natural numbers; a buffer
`uint8_t* data` is a `List Nat`.
-/

namespace gr.ieee80211.utils

/-! ## Scrambler -/

/-- Modelled from the spec: the feedback (output) bit of the 7-bit LFSR with
polynomial `x^7 + x^4 + 1`, the XOR of the register taps 7 and 4 (bits 6 and
3 of `state`). The body of `scramble` (`lib/utils.cc`) is missing. -/
def lfsr_output (state : Nat) : Nat :=
  ((state >>> 6) ^^^ (state >>> 3)) &&& 1

/-- Modelled from the spec: one step of the 7-bit LFSR, shifting the output
bit back in ("advances one state step per output bit"). -/
def lfsr_advance (state : Nat) : Nat :=
  ((state <<< 1) ||| lfsr_output state) &&& 0x7F

/-- Modelled from the spec: the bit loop of `scramble` over one byte. For each
of the bit positions in `bits` the LFSR output bit is XORed into that data bit
and the register advances. Returns the byte and the register. -/
def scramble_bits : List Nat → Nat → Nat → Nat × Nat
  | [], byte, state => (byte, state)
  | bit :: rest, byte, state =>
      scramble_bits rest (byte ^^^ (lfsr_output state <<< bit)) (lfsr_advance state)

/-- Modelled from the spec: `scramble` on one byte, bit 0 first. -/
def scramble_byte (byte state : Nat) : Nat × Nat :=
  scramble_bits [0, 1, 2, 3, 4, 5, 6, 7] byte state

/-- Modelled from the spec: the byte loop of `scramble`, one running LFSR
through the whole buffer. -/
def scramble_loop : List Nat → Nat → List Nat
  | [], _ => []
  | byte :: rest, state =>
      (scramble_byte byte state).1 :: scramble_loop rest (scramble_byte byte state).2

/-- Modelled from the spec: `void scramble(uint8_t* data, size_t len, uint8_t
init)` of `utils.h`, whose body is missing: "7-bit LFSR, polynomial
`x^7+x^4+1`, advances one state step per output bit, XORs the LFSR output bit
into each data bit". The first `len` bytes of the buffer are rewritten in
place, the rest is untouched; the register starts at the low 7 bits of `init`.
The result is the buffer after the call. -/
def scramble (data : List Nat) (len : Nat) (init : Nat) : List Nat :=
  scramble_loop (data.take len) (init &&& 0x7F) ++ data.drop len

/-- The inline `descramble` of `utils.h`: `scramble(data, len, init)`. -/
def descramble (data : List Nat) (len : Nat) (init : Nat) : List Nat :=
  scramble data len init

/-- The default seed of `scramble` and `descramble`. -/
def default_init : Nat := 0x1B

/-- The inline `descramble` of `utils.h` over any function in the place of
`scramble`: the body forwards its three arguments. -/
def descramble_via (scramble_fn : List Nat → Nat → Nat → List Nat)
    (data : List Nat) (len : Nat) (init : Nat) : List Nat :=
  scramble_fn data len init

/-- The call `scramble(data, len)`: the declaration of `scramble` gives the
omitted seed the default `init = 0x1B`. -/
def scramble_default (data : List Nat) (len : Nat) : List Nat :=
  scramble data len default_init

/-- The call `descramble(data, len)`: the definition of `descramble` gives the
omitted seed the default `init = 0x1B`. -/
def descramble_default (data : List Nat) (len : Nat) : List Nat :=
  descramble data len default_init

/-! ## CRC-32 frame check sequence -/

/-- Modelled from the spec: the IEEE 802.3/802.11 CRC-32 generator in its
byte-reflected form. The bodies of `crc32_byte`, `calc_fcs`, `validate_fcs`
and `extract_fcs` (`lib/utils.cc`) are missing. -/
def CRC32_POLY : Nat := 0xEDB88320

/-- Modelled from the spec: one bit step of the reflected CRC-32 register. -/
def crc32_shift (crc : Nat) : Nat :=
  if crc &&& 1 = 1 then (crc >>> 1) ^^^ CRC32_POLY else crc >>> 1

/-- Modelled from the spec: `uint32_t crc32_byte(uint32_t crc, uint8_t byte)`
of `utils.h`, "updated CRC value" for one input byte: the byte is XORed into
the low bits of the register, which then takes eight bit steps. -/
def crc32_byte (crc byte : Nat) : Nat :=
  crc32_shift (crc32_shift (crc32_shift (crc32_shift
    (crc32_shift (crc32_shift (crc32_shift (crc32_shift (crc ^^^ byte))))))))

/-- Modelled from the spec: `uint32_t calc_fcs(const uint8_t* data, size_t
len)` of `utils.h`: "standard CRC-32 (Ethernet/802.11 polynomial ... must
match Ethernet FCS bit-for-bit)" over the first `len` bytes: register preset
to all ones, complemented at the end. -/
def calc_fcs (data : List Nat) (len : Nat) : Nat :=
  (data.take len).foldl crc32_byte 0xFFFFFFFF ^^^ 0xFFFFFFFF

/-- Modelled from the spec: `uint32_t extract_fcs(const uint8_t* data, size_t
len)` of `utils.h`: the last 4 of the `len` bytes, least-significant byte
first (the order in which the test's `memcpy` of a `uint32_t` stores it). -/
def extract_fcs (data : List Nat) (len : Nat) : Nat :=
  data.getD (len - 4) 0 + data.getD (len - 3) 0 * 2 ^ 8
    + data.getD (len - 2) 0 * 2 ^ 16 + data.getD (len - 1) 0 * 2 ^ 24

/-- Modelled from the spec: `bool validate_fcs(const uint8_t* data, size_t
len)` of `utils.h`: "recompute over all but the last 4 bytes, compare ... to
the trailing FCS". A frame shorter than an FCS is not valid. -/
def validate_fcs (data : List Nat) (len : Nat) : Bool :=
  if len < 4 then false else calc_fcs data (len - 4) == extract_fcs data len

/-- The bytes `memcpy(&frame[n], &fcs, 4)` stores for a `uint32_t fcs`
(`qa_dsss.cc`, `test_fcs_validation`), least-significant byte first. -/
def fcs_bytes (fcs : Nat) : List Nat :=
  [fcs % 256, fcs / 2 ^ 8 % 256, fcs / 2 ^ 16 % 256, fcs / 2 ^ 24 % 256]

/-- The frame `test_fcs_validation` builds: the data followed by its FCS. -/
def append_fcs (d : List Nat) : List Nat :=
  d ++ fcs_bytes (calc_fcs d d.length)

/-- The corruption `frame[i] ^= e` of `test_fcs_validation`. -/
def xor_at : List Nat → Nat → Nat → List Nat
  | [], _, _ => []
  | b :: rest, 0, e => (b ^^^ e) :: rest
  | b :: rest, i + 1, e => b :: xor_at rest i e

/-- Flipping bit `k` of byte `i` of a buffer. -/
def flip_bit (data : List Nat) (i k : Nat) : List Nat :=
  xor_at data i (1 <<< k)

/-! ## CRC-16 of the PLCP header -/

/-- Modelled from the spec: one bit step of the CCITT CRC-16 register,
polynomial `x^16 + x^12 + x^5 + 1` (`0x1021`), most-significant bit first.
The bodies of `calc_plcp_crc16` and `validate_plcp_crc16` (`lib/utils.cc`)
are missing. -/
def crc16_shift (crc : Nat) : Nat :=
  if crc &&& 0x8000 = 0x8000 then ((crc <<< 1) ^^^ 0x1021) % 2 ^ 16
  else (crc <<< 1) % 2 ^ 16

/-- Modelled from the spec: the CCITT CRC-16 register after one input byte. -/
def crc16_byte (crc byte : Nat) : Nat :=
  crc16_shift (crc16_shift (crc16_shift (crc16_shift
    (crc16_shift (crc16_shift (crc16_shift (crc16_shift (crc ^^^ (byte <<< 8)))))))))

/-- Modelled from the spec: `uint16_t calc_plcp_crc16(const uint8_t* header)`
of `utils.h`: "CCITT CRC-16 (poly `x^16+x^12+x^5+1`) over
SIGNAL/SERVICE/LENGTH", the first 4 bytes of `header`. The spec fixes the
polynomial only; the register is preset to all ones, the usual CCITT
convention. -/
def calc_plcp_crc16 (header : List Nat) : Nat :=
  (header.take 4).foldl crc16_byte 0xFFFF

/-- Modelled from the spec: `bool validate_plcp_crc16(const uint8_t* header)`
of `utils.h` on the 6-byte header: "bytes4-5 CRC-16 (little-endian) over
bytes0-3". -/
def validate_plcp_crc16 (header : List Nat) : Bool :=
  calc_plcp_crc16 header == header.getD 4 0 + header.getD 5 0 * 2 ^ 8

/-- The bytes `memcpy(&full_header[4], &crc, 2)` stores for a `uint16_t crc`
(`qa_dsss.cc`, `test_plcp_crc16`), low byte first. -/
def crc16_bytes (crc : Nat) : List Nat :=
  [crc % 256, crc / 2 ^ 8 % 256]

/-- The 6-byte header `test_plcp_crc16` builds: the 4 header bytes followed by
their CRC-16. -/
def append_plcp_crc16 (h : List Nat) : List Nat :=
  h ++ crc16_bytes (calc_plcp_crc16 h)

end gr.ieee80211.utils

namespace gr.ieee80211

/-! ## Values shared by the blocks -/

/-- The C++ exceptions the modelled code throws. -/
inductive exception where
  | invalid_argument (what : String)
  deriving DecidableEq, Repr

deriving instance DecidableEq for Except

/-- The binary exponent `e` of a positive ratio: `2^e ≤ n/d < 2^(e+1)`. -/
def binade (n d : Nat) : Int :=
  let e : Int := (Nat.log2 n : Int) - (Nat.log2 d : Int)
  if (if 0 ≤ e then d * 2 ^ e.toNat ≤ n else d ≤ n * 2 ^ (-e).toNat) then e else e - 1

/-- The integer nearest to `n/d`, ties to even. -/
def round_half_even (n d : Nat) : Nat :=
  let q := n / d
  let r := n % d
  if 2 * r < d then q else if d < 2 * r then q + 1 else if q % 2 = 0 then q else q + 1

/-- The value of a C++ `float` literal such as `86.7f`: the IEEE 754 binary32
number nearest to the decimal `x` (24-bit significand, round to nearest, ties
to even; `x` in the normal range). A `float` is modelled by the rational it
denotes. -/
def f32 (x : ℚ) : ℚ :=
  if x = 0 then 0 else
    let n := x.num.natAbs
    let d := x.den
    let s : Int := 23 - binade n d
    let m := if 0 ≤ s then round_half_even (n * 2 ^ s.toNat) d
             else round_half_even n (d * 2 ^ (-s).toNat)
    (if x < 0 then -1 else 1) * (m : ℚ) * (2 : ℚ) ^ (-s)

/-! ## Rate catalog (`wifi_rates.h`, `wifi_rates.cc`) -/

/-- The `enum class wifi_rate`: an `int`-backed identifier. Every `int` can be
cast to it; the declared enumerators are the values 0 to 32. -/
structure wifi_rate where
  val : Int
  deriving DecidableEq, Repr

namespace wifi_rate

/-- Enumerator `DSSS_1M_LONG`, value 0. -/
def DSSS_1M_LONG : wifi_rate := ⟨0⟩

/-- Enumerator `DSSS_2M_LONG`, value 1. -/
def DSSS_2M_LONG : wifi_rate := ⟨1⟩

/-- Enumerator `DSSS_5_5M_LONG`, value 2. -/
def DSSS_5_5M_LONG : wifi_rate := ⟨2⟩

/-- Enumerator `DSSS_11M_LONG`, value 3. -/
def DSSS_11M_LONG : wifi_rate := ⟨3⟩

/-- Enumerator `DSSS_2M_SHORT`, value 4. -/
def DSSS_2M_SHORT : wifi_rate := ⟨4⟩

/-- Enumerator `DSSS_5_5M_SHORT`, value 5. -/
def DSSS_5_5M_SHORT : wifi_rate := ⟨5⟩

/-- Enumerator `DSSS_11M_SHORT`, value 6. -/
def DSSS_11M_SHORT : wifi_rate := ⟨6⟩

/-- Enumerator `OFDM_6M`, value 7. -/
def OFDM_6M : wifi_rate := ⟨7⟩

/-- Enumerator `OFDM_9M`, value 8. -/
def OFDM_9M : wifi_rate := ⟨8⟩

/-- Enumerator `OFDM_12M`, value 9. -/
def OFDM_12M : wifi_rate := ⟨9⟩

/-- Enumerator `OFDM_18M`, value 10. -/
def OFDM_18M : wifi_rate := ⟨10⟩

/-- Enumerator `OFDM_24M`, value 11. -/
def OFDM_24M : wifi_rate := ⟨11⟩

/-- Enumerator `OFDM_36M`, value 12. -/
def OFDM_36M : wifi_rate := ⟨12⟩

/-- Enumerator `OFDM_48M`, value 13. -/
def OFDM_48M : wifi_rate := ⟨13⟩

/-- Enumerator `OFDM_54M`, value 14. -/
def OFDM_54M : wifi_rate := ⟨14⟩

/-- Enumerator `HT_MCS0_20MHz`, value 15. -/
def HT_MCS0_20MHz : wifi_rate := ⟨15⟩

/-- Enumerator `HT_MCS1_20MHz`, value 16. -/
def HT_MCS1_20MHz : wifi_rate := ⟨16⟩

/-- Enumerator `HT_MCS2_20MHz`, value 17. -/
def HT_MCS2_20MHz : wifi_rate := ⟨17⟩

/-- Enumerator `HT_MCS3_20MHz`, value 18. -/
def HT_MCS3_20MHz : wifi_rate := ⟨18⟩

/-- Enumerator `HT_MCS4_20MHz`, value 19. -/
def HT_MCS4_20MHz : wifi_rate := ⟨19⟩

/-- Enumerator `HT_MCS5_20MHz`, value 20. -/
def HT_MCS5_20MHz : wifi_rate := ⟨20⟩

/-- Enumerator `HT_MCS6_20MHz`, value 21. -/
def HT_MCS6_20MHz : wifi_rate := ⟨21⟩

/-- Enumerator `HT_MCS7_20MHz`, value 22. -/
def HT_MCS7_20MHz : wifi_rate := ⟨22⟩

/-- Enumerator `VHT_MCS0_20MHz`, value 23. -/
def VHT_MCS0_20MHz : wifi_rate := ⟨23⟩

/-- Enumerator `VHT_MCS1_20MHz`, value 24. -/
def VHT_MCS1_20MHz : wifi_rate := ⟨24⟩

/-- Enumerator `VHT_MCS2_20MHz`, value 25. -/
def VHT_MCS2_20MHz : wifi_rate := ⟨25⟩

/-- Enumerator `VHT_MCS3_20MHz`, value 26. -/
def VHT_MCS3_20MHz : wifi_rate := ⟨26⟩

/-- Enumerator `VHT_MCS4_20MHz`, value 27. -/
def VHT_MCS4_20MHz : wifi_rate := ⟨27⟩

/-- Enumerator `VHT_MCS5_20MHz`, value 28. -/
def VHT_MCS5_20MHz : wifi_rate := ⟨28⟩

/-- Enumerator `VHT_MCS6_20MHz`, value 29. -/
def VHT_MCS6_20MHz : wifi_rate := ⟨29⟩

/-- Enumerator `VHT_MCS7_20MHz`, value 30. -/
def VHT_MCS7_20MHz : wifi_rate := ⟨30⟩

/-- Enumerator `VHT_MCS8_20MHz`, value 31. -/
def VHT_MCS8_20MHz : wifi_rate := ⟨31⟩

/-- Enumerator `VHT_MCS9_20MHz`, value 32. -/
def VHT_MCS9_20MHz : wifi_rate := ⟨32⟩

/-- The seven 802.11b DSSS/CCK enumerators. -/
def dsss_rates : List wifi_rate :=
  [DSSS_1M_LONG, DSSS_2M_LONG, DSSS_5_5M_LONG, DSSS_11M_LONG,
   DSSS_2M_SHORT, DSSS_5_5M_SHORT, DSSS_11M_SHORT]

/-- The eight 802.11a/g OFDM enumerators. -/
def ofdm_rates : List wifi_rate :=
  [OFDM_6M, OFDM_9M, OFDM_12M, OFDM_18M, OFDM_24M, OFDM_36M, OFDM_48M, OFDM_54M]

/-- The eight 802.11n HT enumerators. -/
def ht_rates : List wifi_rate :=
  [HT_MCS0_20MHz, HT_MCS1_20MHz, HT_MCS2_20MHz, HT_MCS3_20MHz,
   HT_MCS4_20MHz, HT_MCS5_20MHz, HT_MCS6_20MHz, HT_MCS7_20MHz]

/-- The ten 802.11ac VHT enumerators. -/
def vht_rates : List wifi_rate :=
  [VHT_MCS0_20MHz, VHT_MCS1_20MHz, VHT_MCS2_20MHz, VHT_MCS3_20MHz, VHT_MCS4_20MHz,
   VHT_MCS5_20MHz, VHT_MCS6_20MHz, VHT_MCS7_20MHz, VHT_MCS8_20MHz, VHT_MCS9_20MHz]

/-- The 33 declared enumerators, in declaration order. -/
def declared : List wifi_rate :=
  dsss_rates ++ ofdm_rates ++ ht_rates ++ vht_rates

end wifi_rate

/-- The `enum class modulation_type`. -/
inductive modulation_type where
  | DSSS
  | CCK
  | OFDM
  deriving DecidableEq, Repr

/-- The `enum class coding_type`. -/
inductive coding_type where
  | NONE
  | BCC
  | LDPC
  deriving DecidableEq, Repr

/-- The `struct rate_info`. -/
structure rate_info where
  rate : wifi_rate
  mbps : ℚ
  mod : modulation_type
  coding : coding_type
  bandwidth_mhz : Int
  description : String
  long_preamble : Bool

/-- The static `rate_table` of `wifi_rates.cc`, a `std::map` from rate to
information, as its list of entries. -/
def rate_table : List (wifi_rate × rate_info) := [
  (.DSSS_1M_LONG, ⟨.DSSS_1M_LONG, f32 1, .DSSS, .NONE, 22,
    "1 Mbps DBPSK (long preamble)", true⟩),
  (.DSSS_2M_LONG, ⟨.DSSS_2M_LONG, f32 2, .DSSS, .NONE, 22,
    "2 Mbps DQPSK (long preamble)", true⟩),
  (.DSSS_5_5M_LONG, ⟨.DSSS_5_5M_LONG, f32 5.5, .CCK, .NONE, 22,
    "5.5 Mbps CCK (long preamble)", true⟩),
  (.DSSS_11M_LONG, ⟨.DSSS_11M_LONG, f32 11, .CCK, .NONE, 22,
    "11 Mbps CCK (long preamble)", true⟩),
  (.DSSS_2M_SHORT, ⟨.DSSS_2M_SHORT, f32 2, .DSSS, .NONE, 22,
    "2 Mbps DQPSK (short preamble)", false⟩),
  (.DSSS_5_5M_SHORT, ⟨.DSSS_5_5M_SHORT, f32 5.5, .CCK, .NONE, 22,
    "5.5 Mbps CCK (short preamble)", false⟩),
  (.DSSS_11M_SHORT, ⟨.DSSS_11M_SHORT, f32 11, .CCK, .NONE, 22,
    "11 Mbps CCK (short preamble)", false⟩),
  (.OFDM_6M, ⟨.OFDM_6M, f32 6, .OFDM, .BCC, 20,
    "6 Mbps OFDM (BPSK 1/2)", false⟩),
  (.OFDM_9M, ⟨.OFDM_9M, f32 9, .OFDM, .BCC, 20,
    "9 Mbps OFDM (BPSK 3/4)", false⟩),
  (.OFDM_12M, ⟨.OFDM_12M, f32 12, .OFDM, .BCC, 20,
    "12 Mbps OFDM (QPSK 1/2)", false⟩),
  (.OFDM_18M, ⟨.OFDM_18M, f32 18, .OFDM, .BCC, 20,
    "18 Mbps OFDM (QPSK 3/4)", false⟩),
  (.OFDM_24M, ⟨.OFDM_24M, f32 24, .OFDM, .BCC, 20,
    "24 Mbps OFDM (16-QAM 1/2)", false⟩),
  (.OFDM_36M, ⟨.OFDM_36M, f32 36, .OFDM, .BCC, 20,
    "36 Mbps OFDM (16-QAM 3/4)", false⟩),
  (.OFDM_48M, ⟨.OFDM_48M, f32 48, .OFDM, .BCC, 20,
    "48 Mbps OFDM (64-QAM 2/3)", false⟩),
  (.OFDM_54M, ⟨.OFDM_54M, f32 54, .OFDM, .BCC, 20,
    "54 Mbps OFDM (64-QAM 3/4)", false⟩),
  (.HT_MCS0_20MHz, ⟨.HT_MCS0_20MHz, f32 6.5, .OFDM, .BCC, 20,
    "HT MCS0 6.5 Mbps (BPSK 1/2)", false⟩),
  (.HT_MCS1_20MHz, ⟨.HT_MCS1_20MHz, f32 13, .OFDM, .BCC, 20,
    "HT MCS1 13 Mbps (QPSK 1/2)", false⟩),
  (.HT_MCS2_20MHz, ⟨.HT_MCS2_20MHz, f32 19.5, .OFDM, .BCC, 20,
    "HT MCS2 19.5 Mbps (QPSK 3/4)", false⟩),
  (.HT_MCS3_20MHz, ⟨.HT_MCS3_20MHz, f32 26, .OFDM, .BCC, 20,
    "HT MCS3 26 Mbps (16-QAM 1/2)", false⟩),
  (.HT_MCS4_20MHz, ⟨.HT_MCS4_20MHz, f32 39, .OFDM, .BCC, 20,
    "HT MCS4 39 Mbps (16-QAM 3/4)", false⟩),
  (.HT_MCS5_20MHz, ⟨.HT_MCS5_20MHz, f32 52, .OFDM, .BCC, 20,
    "HT MCS5 52 Mbps (64-QAM 2/3)", false⟩),
  (.HT_MCS6_20MHz, ⟨.HT_MCS6_20MHz, f32 58.5, .OFDM, .BCC, 20,
    "HT MCS6 58.5 Mbps (64-QAM 3/4)", false⟩),
  (.HT_MCS7_20MHz, ⟨.HT_MCS7_20MHz, f32 65, .OFDM, .BCC, 20,
    "HT MCS7 65 Mbps (64-QAM 5/6)", false⟩),
  (.VHT_MCS0_20MHz, ⟨.VHT_MCS0_20MHz, f32 6.5, .OFDM, .BCC, 20,
    "VHT MCS0 6.5 Mbps (BPSK 1/2)", false⟩),
  (.VHT_MCS1_20MHz, ⟨.VHT_MCS1_20MHz, f32 13, .OFDM, .BCC, 20,
    "VHT MCS1 13 Mbps (QPSK 1/2)", false⟩),
  (.VHT_MCS2_20MHz, ⟨.VHT_MCS2_20MHz, f32 19.5, .OFDM, .BCC, 20,
    "VHT MCS2 19.5 Mbps (QPSK 3/4)", false⟩),
  (.VHT_MCS3_20MHz, ⟨.VHT_MCS3_20MHz, f32 26, .OFDM, .BCC, 20,
    "VHT MCS3 26 Mbps (16-QAM 1/2)", false⟩),
  (.VHT_MCS4_20MHz, ⟨.VHT_MCS4_20MHz, f32 39, .OFDM, .BCC, 20,
    "VHT MCS4 39 Mbps (16-QAM 3/4)", false⟩),
  (.VHT_MCS5_20MHz, ⟨.VHT_MCS5_20MHz, f32 52, .OFDM, .BCC, 20,
    "VHT MCS5 52 Mbps (64-QAM 2/3)", false⟩),
  (.VHT_MCS6_20MHz, ⟨.VHT_MCS6_20MHz, f32 58.5, .OFDM, .BCC, 20,
    "VHT MCS6 58.5 Mbps (64-QAM 3/4)", false⟩),
  (.VHT_MCS7_20MHz, ⟨.VHT_MCS7_20MHz, f32 65, .OFDM, .BCC, 20,
    "VHT MCS7 65 Mbps (64-QAM 5/6)", false⟩),
  (.VHT_MCS8_20MHz, ⟨.VHT_MCS8_20MHz, f32 78, .OFDM, .BCC, 20,
    "VHT MCS8 78 Mbps (256-QAM 3/4)", false⟩),
  (.VHT_MCS9_20MHz, ⟨.VHT_MCS9_20MHz, f32 86.7, .OFDM, .BCC, 20,
    "VHT MCS9 86.7 Mbps (256-QAM 5/6)", false⟩)]

/-- The function `get_rate_info`: `rate_table.find(r)`, throwing
`std::invalid_argument("Unknown WiFi rate")` when there is no entry. -/
def get_rate_info (r : wifi_rate) : Except exception rate_info :=
  match rate_table.lookup r with
  | none => .error (.invalid_argument "Unknown WiFi rate")
  | some info => .ok info

/-- The function `get_rate_name`: `get_rate_info(r).description`. -/
def get_rate_name (r : wifi_rate) : Except exception String :=
  (get_rate_info r).map (fun info => info.description)

/-- The function `get_rate_mbps`: `get_rate_info(r).mbps`. -/
def get_rate_mbps (r : wifi_rate) : Except exception ℚ :=
  (get_rate_info r).map (fun info => info.mbps)

/-- The function `is_dsss_rate`: the modulation is `DSSS` or `CCK`. -/
def is_dsss_rate (r : wifi_rate) : Except exception Bool :=
  (get_rate_info r).map
    (fun info => info.mod == modulation_type.DSSS || info.mod == modulation_type.CCK)

/-- The function `is_ofdm_rate`: the modulation is `OFDM`. -/
def is_ofdm_rate (r : wifi_rate) : Except exception Bool :=
  (get_rate_info r).map (fun info => info.mod == modulation_type.OFDM)

/-! ## Barker-11 correlation (`qa_dsss.cc`, `test_barker_code_correlation`) -/

/-- The array `barker[11]` of the test. The chips are ±1 and every partial sum
of their products is an integer of magnitude at most 11, which `float` holds
exactly. -/
def barker : List Int := [1, -1, 1, 1, -1, 1, 1, 1, -1, -1, -1]

/-- The zero-lag loop of the test: `autocorr += barker[i] * barker[i]` for
`i` from 0 to 10. -/
def autocorr : Int :=
  (List.range 11).foldl (fun acc i => acc + barker.getD i 0 * barker.getD i 0) 0

/-- The inner loop of the test for one `lag`: `corr += barker[i] * barker[i +
lag]` for `i` from 0 to `11 - lag - 1`. -/
def corr (lag : Nat) : Int :=
  (List.range (11 - lag)).foldl (fun acc i => acc + barker.getD i 0 * barker.getD (i + lag) 0) 0

/-! ## Chip synchronizer construction (`chip_sync_c.h`) -/

/-- The configuration a `chip_sync_c` block is created with. -/
structure chip_sync_c where
  longPre : Bool
  threshold : ℚ
  deriving DecidableEq, Repr

/-- Modelled from the spec: `chip_sync_c::make(bool longPre, float
threshold)`, of which `chip_sync_c.h` holds the declaration only; the
implementation is missing. "`threshold`
(configured, must be positive — construction fails with an invalid-argument
condition for a negative threshold)": a negative threshold is refused, any
other creates the synchronizer. The spec does not say what a zero threshold
does; it is accepted here. -/
def chip_sync_c.make (longPre : Bool) (threshold : ℚ) : Except exception chip_sync_c :=
  if threshold < 0 then .error (.invalid_argument "threshold must be positive")
  else .ok ⟨longPre, threshold⟩

/-! ## Statistics collector (`wifi_stats_collector.h`, `wifi_stats_collector_impl.cc`)

The collector is modelled sequentially: a handler is a function from the state
before to the state after, and the reading of `steady_clock::now()` is an
argument. The mutex and the message published on the `stats` port are not part
of the state. A `float` or `double` is the rational it denotes and arithmetic
on them is exact (rounding is not modelled); the `uint64_t` counters wrap at
`2^64`. -/

/-- The modulus of `uint64_t` arithmetic. -/
def UINT64_MOD : Nat := 2 ^ 64

/-- The conversion `size_t len = pmt::to_long(...)`: a `long` taken modulo
`2^64`. -/
def size_t_of_long (v : Int) : Nat := (v % (2 ^ 64 : Int)).toNat

/-- The conversion `static_cast<wifi_rate>(pmt::to_long(...))`: the `long` is
narrowed to the `int` behind the enumeration. -/
def wifi_rate_of_long (v : Int) : wifi_rate := ⟨(v + 2 ^ 31) % 2 ^ 32 - 2 ^ 31⟩

/-- A message `pmt::pmt_t` as the handlers read it: either not a dictionary, or
a dictionary of which only the keys `length`, `rate`, `snr` and `rssi` matter.
A key that is absent or bound to `PMT_NIL` is `none`; a present `length` or
`rate` is an integer and a present `snr` or `rssi` is a `float`. -/
inductive pmt_msg where
  | not_dict
  | dict (length : Option Int) (rate : Option Int) (snr : Option ℚ) (rssi : Option ℚ)
  deriving DecidableEq, Repr

/-- The `struct stats_report`. -/
structure stats_report where
  rx_packets_total : Nat
  rx_packets_success : Nat
  rx_packets_error : Nat
  tx_packets_total : Nat
  throughput_current : ℚ
  throughput_average : ℚ
  throughput_peak : ℚ
  snr_current : ℚ
  snr_average : ℚ
  rssi_current : ℚ
  rssi_average : ℚ
  per_current : ℚ
  per_average : ℚ
  current_rate : wifi_rate
  current_modulation : modulation_type
  elapsed_time : ℚ
  total_bytes : Nat
  deriving DecidableEq, Repr

/-- The data members of `class wifi_stats_collector_impl`. Time points are
clock readings in nanoseconds. -/
structure wifi_stats_collector_impl where
  d_update_interval_ms : Int
  d_rx_packets_total : Nat
  d_rx_packets_success : Nat
  d_rx_packets_error : Nat
  d_tx_packets_total : Nat
  d_total_bytes : Nat
  d_snr_history : List ℚ
  d_rssi_history : List ℚ
  d_snr_current : ℚ
  d_rssi_current : ℚ
  d_start_time : Int
  d_last_update : Int
  d_last_packet_time : Int
  d_bytes_since_last_update : Nat
  d_throughput_current : ℚ
  d_throughput_peak : ℚ
  d_current_rate : wifi_rate
  d_current_modulation : modulation_type
  deriving DecidableEq, Repr

namespace wifi_stats_collector_impl

/-- The constructor `wifi_stats_collector_impl(int update_interval_ms)`. The
histories start empty and the time points at the clock's epoch. -/
def make (update_interval_ms : Int) : wifi_stats_collector_impl where
  d_update_interval_ms := update_interval_ms
  d_rx_packets_total := 0
  d_rx_packets_success := 0
  d_rx_packets_error := 0
  d_tx_packets_total := 0
  d_total_bytes := 0
  d_snr_history := []
  d_rssi_history := []
  d_snr_current := 0
  d_rssi_current := 0
  d_start_time := 0
  d_last_update := 0
  d_last_packet_time := 0
  d_bytes_since_last_update := 0
  d_throughput_current := 0
  d_throughput_peak := 0
  d_current_rate := wifi_rate.DSSS_1M_LONG
  d_current_modulation := modulation_type.DSSS

/-- The method `start()`. -/
def start (s : wifi_stats_collector_impl) (now : Int) : wifi_stats_collector_impl :=
  { s with d_start_time := now, d_last_update := now, d_last_packet_time := now }

/-- The method `update_throughput()`, without the publication of the report:
`publish_stats()` changes no data member. (It calls `get_stats()`, which locks
the mutex the calling handler already holds; the lock is left out here.) -/
def update_throughput (s : wifi_stats_collector_impl) (now : Int) :
    wifi_stats_collector_impl :=
  let elapsed : Int := (now - s.d_last_update).tdiv 1000000
  if elapsed ≥ s.d_update_interval_ms then
    let s1 :=
      if elapsed > 0 then
        let current : ℚ := (s.d_bytes_since_last_update * 1000 : ℚ) / elapsed
        { s with d_throughput_current := current
                 d_throughput_peak := max s.d_throughput_peak current }
      else s
    { s1 with d_bytes_since_last_update := 0, d_last_update := now }
  else s

/-- The block `if (!pmt::eqv(len_pmt, pmt::PMT_NIL))` shared by
`handle_rx_packet` and `handle_tx_packet`: the length is added to both byte
counters. -/
def add_length (s : wifi_stats_collector_impl) (length : Option Int) :
    wifi_stats_collector_impl :=
  match length with
  | none => s
  | some len =>
      { s with d_total_bytes := (s.d_total_bytes + size_t_of_long len) % UINT64_MOD
               d_bytes_since_last_update :=
                 (s.d_bytes_since_last_update + size_t_of_long len) % UINT64_MOD }

/-- The method `handle_rx_packet(msg)`. It reads the clock twice: `now` for
`d_last_packet_time`, `now_update` inside `update_throughput()`. -/
def handle_rx_packet (s : wifi_stats_collector_impl) (msg : pmt_msg) (now now_update : Int) :
    wifi_stats_collector_impl :=
  let s1 := { s with d_rx_packets_total := (s.d_rx_packets_total + 1) % UINT64_MOD
                     d_rx_packets_success := (s.d_rx_packets_success + 1) % UINT64_MOD
                     d_last_packet_time := now }
  let s2 :=
    match msg with
    | .not_dict => s1
    | .dict length rate _ _ =>
        let s3 := add_length s1 length
        match rate with
        | none => s3
        | some r => { s3 with d_current_rate := wifi_rate_of_long r }
  update_throughput s2 now_update

/-- The method `handle_tx_packet(msg)`. -/
def handle_tx_packet (s : wifi_stats_collector_impl) (msg : pmt_msg) :
    wifi_stats_collector_impl :=
  let s1 := { s with d_tx_packets_total := (s.d_tx_packets_total + 1) % UINT64_MOD }
  match msg with
  | .not_dict => s1
  | .dict length _ _ _ => add_length s1 length

/-- The method `handle_rx_error(msg)`. -/
def handle_rx_error (s : wifi_stats_collector_impl) (_msg : pmt_msg) :
    wifi_stats_collector_impl :=
  { s with d_rx_packets_total := (s.d_rx_packets_total + 1) % UINT64_MOD
           d_rx_packets_error := (s.d_rx_packets_error + 1) % UINT64_MOD }

/-- The update of a history in `handle_signal_quality`: `push_back`, then
`erase(begin())` when the size exceeds 100. -/
def push_history (history : List ℚ) (v : ℚ) : List ℚ :=
  let h := history ++ [v]
  if h.length > 100 then h.tail else h

/-- The method `handle_signal_quality(msg)`. -/
def handle_signal_quality (s : wifi_stats_collector_impl) (msg : pmt_msg) :
    wifi_stats_collector_impl :=
  match msg with
  | .not_dict => s
  | .dict _ _ snr rssi =>
      let s1 :=
        match snr with
        | none => s
        | some v => { s with d_snr_current := v, d_snr_history := push_history s.d_snr_history v }
      match rssi with
      | none => s1
      | some v =>
          { s1 with d_rssi_current := v, d_rssi_history := push_history s1.d_rssi_history v }

/-- The average `get_stats` computes from a history: `std::accumulate` from
`0.0f` divided by the size, and `0.0f` for an empty history. -/
def history_average (history : List ℚ) : ℚ :=
  if history ≠ [] then history.foldl (fun sum v => sum + v) 0 / history.length else 0

/-- The method `get_stats()`. -/
def get_stats (s : wifi_stats_collector_impl) (now : Int) : stats_report :=
  let elapsed : Int := (now - s.d_start_time).tdiv 1000000000
  let per : ℚ :=
    if s.d_rx_packets_total > 0 then (s.d_rx_packets_error : ℚ) / s.d_rx_packets_total else 0
  { rx_packets_total := s.d_rx_packets_total
    rx_packets_success := s.d_rx_packets_success
    rx_packets_error := s.d_rx_packets_error
    tx_packets_total := s.d_tx_packets_total
    total_bytes := s.d_total_bytes
    throughput_current := s.d_throughput_current
    throughput_peak := s.d_throughput_peak
    throughput_average := if elapsed > 0 then (s.d_total_bytes : ℚ) / elapsed else 0
    snr_current := s.d_snr_current
    rssi_current := s.d_rssi_current
    snr_average := history_average s.d_snr_history
    rssi_average := history_average s.d_rssi_history
    per_current := per
    per_average := per
    current_rate := s.d_current_rate
    current_modulation := s.d_current_modulation
    elapsed_time := elapsed }

/-- The method `reset_stats()`. -/
def reset_stats (s : wifi_stats_collector_impl) (now : Int) : wifi_stats_collector_impl :=
  { s with d_rx_packets_total := 0
           d_rx_packets_success := 0
           d_rx_packets_error := 0
           d_tx_packets_total := 0
           d_total_bytes := 0
           d_bytes_since_last_update := 0
           d_throughput_current := 0
           d_throughput_peak := 0
           d_snr_history := []
           d_rssi_history := []
           d_start_time := now
           d_last_update := now }

/-- The method `set_update_interval(interval_ms)`. -/
def set_update_interval (s : wifi_stats_collector_impl) (interval_ms : Int) :
    wifi_stats_collector_impl :=
  { s with d_update_interval_ms := interval_ms }

end wifi_stats_collector_impl

/-- What can happen to a collector: a message on one of its four input ports,
or a call of `start`, `reset_stats` or `set_update_interval`. The events that
read the clock carry its reading. -/
inductive collector_event where
  | rx_packets (msg : pmt_msg) (now now_update : Int)
  | tx_packets (msg : pmt_msg)
  | rx_errors (msg : pmt_msg)
  | signal_quality (msg : pmt_msg)
  | start (now : Int)
  | reset_stats (now : Int)
  | set_update_interval (interval_ms : Int)
  deriving DecidableEq, Repr

/-- The handler or method an event runs. -/
def collector_step (s : wifi_stats_collector_impl) :
    collector_event → wifi_stats_collector_impl
  | .rx_packets msg now now_update => s.handle_rx_packet msg now now_update
  | .tx_packets msg => s.handle_tx_packet msg
  | .rx_errors msg => s.handle_rx_error msg
  | .signal_quality msg => s.handle_signal_quality msg
  | .start now => s.start now
  | .reset_stats now => s.reset_stats now
  | .set_update_interval interval_ms => s.set_update_interval interval_ms

/-- The state of a collector constructed with `update_interval_ms` after the
events of `trace`, oldest first. -/
def collector_run (update_interval_ms : Int) (trace : List collector_event) :
    wifi_stats_collector_impl :=
  trace.foldl collector_step (wifi_stats_collector_impl.make update_interval_ms)

/-- The numbers of `rx_packets` and of `rx_errors` messages since construction
or the last `reset_stats`, as unbounded naturals. -/
def rx_counts (trace : List collector_event) : Nat × Nat :=
  trace.foldl
    (fun c e =>
      match e with
      | .rx_packets _ _ _ => (c.1 + 1, c.2)
      | .rx_errors _ => (c.1, c.2 + 1)
      | .reset_stats _ => (0, 0)
      | _ => c)
    (0, 0)

/-- A digit string without its trailing zeros. -/
def strip_trailing_zeros (cs : List Char) : List Char :=
  (cs.reverse.dropWhile (fun c => c == '0')).reverse

/-- The ratio `n/d`, at least 1, printed the way a C++ stream prints a `float`
by default: rounded to 6 significant digits, without trailing zeros and
without a trailing point (fixed notation, results below `10^6`). -/
def decimal_text_of (n d : Nat) : String :=
  let fd := 6 - (Nat.repr (n / d)).length
  let scaled := round_half_even (n * 10 ^ fd) d
  let fp := (Nat.repr (scaled % 10 ^ fd)).toList
  let frac := strip_trailing_zeros (List.replicate (fd - fp.length) '0' ++ fp)
  if frac = [] then Nat.repr (scaled / 10 ^ fd)
  else Nat.repr (scaled / 10 ^ fd) ++ "." ++ String.mk frac

/-- The decimal text of a positive `float` value: `1` for 1.0, `5.5` for 5.5,
`86.7` for the `float` nearest to 86.7. -/
def decimal_text (x : ℚ) : String := decimal_text_of x.num.natAbs x.den

end gr.ieee80211

namespace gr.ieee80211.utils

/-! ## Scrambler: proofs -/

/-- The keystream bits enter by XOR: the bit loop on `byte` is the bit loop on
`0`, XORed onto `byte`. -/
theorem scramble_bits_xor (bits : List Nat) (byte state : Nat) :
    scramble_bits bits byte state
      = (byte ^^^ (scramble_bits bits 0 state).1, (scramble_bits bits 0 state).2) := by
  induction bits generalizing byte state with
  | nil => simp [scramble_bits]
  | cons bit rest ih =>
      simp only [scramble_bits]
      rw [ih (byte ^^^ _), ih (0 ^^^ _)]
      simp [Nat.xor_assoc]

theorem scramble_byte_fst (byte state : Nat) :
    (scramble_byte byte state).1 = byte ^^^ (scramble_byte 0 state).1 := by
  unfold scramble_byte
  rw [scramble_bits_xor]

theorem scramble_byte_snd (byte state : Nat) :
    (scramble_byte byte state).2 = (scramble_byte 0 state).2 := by
  unfold scramble_byte
  rw [scramble_bits_xor]

theorem scramble_loop_length (data : List Nat) (state : Nat) :
    (scramble_loop data state).length = data.length := by
  induction data generalizing state with
  | nil => rfl
  | cons b rest ih => simp [scramble_loop, ih]

/-- Running the byte loop twice from the same register gives the input back. -/
theorem scramble_loop_involutive (data : List Nat) (state : Nat) :
    scramble_loop (scramble_loop data state) state = data := by
  induction data generalizing state with
  | nil => rfl
  | cons b rest ih =>
      simp only [scramble_loop]
      rw [scramble_byte_snd (scramble_byte b state).1 state, ← scramble_byte_snd b state, ih]
      rw [scramble_byte_fst (scramble_byte b state).1 state, scramble_byte_fst b state]
      simp [Nat.xor_assoc]

/-- The scrambler of the model does change the buffer of `test_scrambler`
(32 bytes `i * 17`, seed `0x1B`), as the test checks. -/
theorem scramble_test_changed :
    scramble ((List.range 32).map (fun i => i * 17 % 256)) 32 0x1B
      ≠ (List.range 32).map (fun i => i * 17 % 256) := by
  decide

/-- C1. For every buffer `x`, every length `len` and every seed `init`,
descrambling the scrambled buffer with the same length and seed gives back
exactly `x`. -/
theorem descramble_scramble (x : List Nat) (len init : Nat) :
    descramble (scramble x len init) len init = x := by
  unfold descramble scramble
  have hlen : (scramble_loop (List.take len x) (init &&& 0x7F)).length = (List.take len x).length :=
    scramble_loop_length _ _
  by_cases h : len ≤ x.length
  · have ht : (List.take len x).length = len := by simp [h]
    rw [List.take_append_of_le_length (by omega), List.drop_append_of_le_length (by omega)]
    rw [List.take_of_length_le (by omega), List.drop_of_length_le (by omega)]
    simp [scramble_loop_involutive]
  · have hx : x.length ≤ len := by omega
    have hy : (scramble_loop x (init &&& 0x7F)).length ≤ len := by
      rw [scramble_loop_length]; exact hx
    rw [List.take_of_length_le hx, List.drop_of_length_le hx, List.append_nil,
      List.take_of_length_le hy, List.drop_of_length_le hy, List.append_nil,
      scramble_loop_involutive]

end gr.ieee80211.utils

namespace gr.ieee80211.utils

/-! ## Buffers: `xor_at` -/

theorem xor_at_length (data : List Nat) (i e : Nat) :
    (xor_at data i e).length = data.length := by
  induction data generalizing i with
  | nil => rfl
  | cons b rest ih => cases i <;> simp [xor_at, ih]

theorem xor_at_append_left (d t : List Nat) (i e : Nat) (hi : i < d.length) :
    xor_at (d ++ t) i e = xor_at d i e ++ t := by
  induction d generalizing i with
  | nil => simp at hi
  | cons b rest ih =>
      cases i with
      | zero => simp [xor_at]
      | succ j =>
          have hj : j < rest.length := by simpa using hi
          simp [xor_at, ih j hj]

theorem xor_at_append_right (d t : List Nat) (i e : Nat) :
    xor_at (d ++ t) (d.length + i) e = d ++ xor_at t i e := by
  induction d with
  | nil => simp
  | cons b rest ih =>
      have h : (b :: rest).length + i = (rest.length + i) + 1 := by simp; omega
      rw [h]
      simp [xor_at, ih]

theorem xor_at_bytes (data : List Nat) (i e : Nat) (he : e < 256)
    (hb : ∀ b ∈ data, b < 256) : ∀ b ∈ xor_at data i e, b < 256 := by
  induction data generalizing i with
  | nil => simp [xor_at]
  | cons c rest ih =>
      have hc : c < 256 := hb c (by simp)
      have hr : ∀ b ∈ rest, b < 256 := fun b hm => hb b (by simp [hm])
      cases i with
      | zero =>
          intro b hm
          simp only [xor_at, List.mem_cons] at hm
          rcases hm with rfl | hm
          · exact Nat.xor_lt_two_pow (n := 8) hc he
          · exact hr b hm
      | succ j =>
          intro b hm
          simp only [xor_at, List.mem_cons] at hm
          rcases hm with rfl | hm
          · exact hc
          · exact ih j hr b hm

/-- XORing a non-zero mask into a byte changes it. -/
theorem xor_mask_ne (b e : Nat) (he : e ≠ 0) : b ^^^ e ≠ b := by
  intro h
  apply he
  have h2 : b ^^^ e = b ^^^ 0 := by simpa using h
  exact Nat.xor_right_inj.mp h2

/-! ## CRC-32: the register update is injective -/

theorem crc32_shift_eq (c : Nat) :
    crc32_shift c = if c % 2 = 1 then (c / 2) ^^^ CRC32_POLY else c / 2 := by
  simp [crc32_shift, Nat.shiftRight_eq_div_pow]

theorem crc32_shift_lt (c : Nat) (h : c < 2 ^ 32) : crc32_shift c < 2 ^ 32 := by
  rw [crc32_shift_eq]
  have h2 : c / 2 < 2 ^ 32 := by omega
  split
  · exact Nat.xor_lt_two_pow h2 (by decide)
  · exact h2

/-- With the low bit set the generator's top bit appears in the register. -/
theorem crc32_poly_top (x : Nat) (h : x < 2 ^ 31) : 2 ^ 31 ≤ x ^^^ CRC32_POLY := by
  apply Nat.testBit_implies_ge
  rw [Nat.testBit_xor, Nat.testBit_lt_two_pow h]
  decide

theorem crc32_shift_inj (c1 c2 : Nat) (h1 : c1 < 2 ^ 32) (h2 : c2 < 2 ^ 32)
    (h : crc32_shift c1 = crc32_shift c2) : c1 = c2 := by
  rw [crc32_shift_eq, crc32_shift_eq] at h
  have t1 := crc32_poly_top (c1 / 2) (by omega)
  have t2 := crc32_poly_top (c2 / 2) (by omega)
  by_cases p1 : c1 % 2 = 1 <;> by_cases p2 : c2 % 2 = 1
  · rw [if_pos p1, if_pos p2] at h
    have := Nat.xor_left_inj.mp h
    omega
  · rw [if_pos p1, if_neg p2] at h
    omega
  · rw [if_neg p1, if_pos p2] at h
    omega
  · rw [if_neg p1, if_neg p2] at h
    omega

theorem crc32_byte_lt (c b : Nat) (hc : c < 2 ^ 32) (hb : b < 256) :
    crc32_byte c b < 2 ^ 32 := by
  have h0 : c ^^^ b < 2 ^ 32 := Nat.xor_lt_two_pow hc (by omega)
  unfold crc32_byte
  repeat apply crc32_shift_lt
  exact h0

theorem crc32_shift8_inj (x y : Nat) (hx : x < 2 ^ 32) (hy : y < 2 ^ 32)
    (h : crc32_shift (crc32_shift (crc32_shift (crc32_shift
          (crc32_shift (crc32_shift (crc32_shift (crc32_shift x)))))))
       = crc32_shift (crc32_shift (crc32_shift (crc32_shift
          (crc32_shift (crc32_shift (crc32_shift (crc32_shift y)))))))) : x = y := by
  have l1x := crc32_shift_lt x hx
  have l1y := crc32_shift_lt y hy
  have l2x := crc32_shift_lt _ l1x
  have l2y := crc32_shift_lt _ l1y
  have l3x := crc32_shift_lt _ l2x
  have l3y := crc32_shift_lt _ l2y
  have l4x := crc32_shift_lt _ l3x
  have l4y := crc32_shift_lt _ l3y
  have l5x := crc32_shift_lt _ l4x
  have l5y := crc32_shift_lt _ l4y
  have l6x := crc32_shift_lt _ l5x
  have l6y := crc32_shift_lt _ l5y
  have l7x := crc32_shift_lt _ l6x
  have l7y := crc32_shift_lt _ l6y
  exact crc32_shift_inj _ _ hx hy (crc32_shift_inj _ _ l1x l1y (crc32_shift_inj _ _ l2x l2y
    (crc32_shift_inj _ _ l3x l3y (crc32_shift_inj _ _ l4x l4y (crc32_shift_inj _ _ l5x l5y
    (crc32_shift_inj _ _ l6x l6y (crc32_shift_inj _ _ l7x l7y h)))))))

/-- Different registers stay different after the same input byte. -/
theorem crc32_byte_inj_crc (c1 c2 b : Nat) (h1 : c1 < 2 ^ 32) (h2 : c2 < 2 ^ 32)
    (hb : b < 256) (h : crc32_byte c1 b = crc32_byte c2 b) : c1 = c2 := by
  have hx : c1 ^^^ b < 2 ^ 32 := Nat.xor_lt_two_pow h1 (by omega)
  have hy : c2 ^^^ b < 2 ^ 32 := Nat.xor_lt_two_pow h2 (by omega)
  exact Nat.xor_left_inj.mp (crc32_shift8_inj _ _ hx hy h)

/-- Different input bytes send one register to different registers. -/
theorem crc32_byte_inj_byte (c b1 b2 : Nat) (hc : c < 2 ^ 32)
    (hb1 : b1 < 256) (hb2 : b2 < 256) (h : crc32_byte c b1 = crc32_byte c b2) : b1 = b2 := by
  have hx : c ^^^ b1 < 2 ^ 32 := Nat.xor_lt_two_pow hc (by omega)
  have hy : c ^^^ b2 < 2 ^ 32 := Nat.xor_lt_two_pow hc (by omega)
  exact Nat.xor_right_inj.mp (crc32_shift8_inj _ _ hx hy h)

theorem crc32_foldl_lt (data : List Nat) (c : Nat) (hc : c < 2 ^ 32)
    (hb : ∀ b ∈ data, b < 256) : data.foldl crc32_byte c < 2 ^ 32 := by
  induction data generalizing c with
  | nil => simpa using hc
  | cons b rest ih =>
      simp only [List.foldl_cons]
      exact ih _ (crc32_byte_lt c b hc (hb b (by simp))) (fun x hx => hb x (by simp [hx]))

theorem crc32_foldl_inj (data : List Nat) (c1 c2 : Nat) (h1 : c1 < 2 ^ 32) (h2 : c2 < 2 ^ 32)
    (hb : ∀ b ∈ data, b < 256)
    (h : data.foldl crc32_byte c1 = data.foldl crc32_byte c2) : c1 = c2 := by
  induction data generalizing c1 c2 with
  | nil => simpa using h
  | cons b rest ih =>
      simp only [List.foldl_cons] at h
      have hbb : b < 256 := hb b (by simp)
      have hr : ∀ x ∈ rest, x < 256 := fun x hx => hb x (by simp [hx])
      exact crc32_byte_inj_crc c1 c2 b h1 h2 hbb
        (ih _ _ (crc32_byte_lt c1 b h1 hbb) (crc32_byte_lt c2 b h2 hbb) hr h)

/-- A change confined to one byte of the data changes the CRC-32 register. -/
theorem crc32_foldl_xor_at (data : List Nat) (c i e : Nat) (hc : c < 2 ^ 32)
    (hb : ∀ b ∈ data, b < 256) (hi : i < data.length) (he : e ≠ 0) (he2 : e < 256) :
    (xor_at data i e).foldl crc32_byte c ≠ data.foldl crc32_byte c := by
  induction data generalizing c i with
  | nil => simp at hi
  | cons b rest ih =>
      have hbb : b < 256 := hb b (by simp)
      have hr : ∀ x ∈ rest, x < 256 := fun x hx => hb x (by simp [hx])
      cases i with
      | zero =>
          simp only [xor_at, List.foldl_cons]
          intro h
          have hbe : b ^^^ e < 256 := Nat.xor_lt_two_pow (n := 8) hbb he2
          have h3 := crc32_foldl_inj rest _ _ (crc32_byte_lt c _ hc hbe)
            (crc32_byte_lt c b hc hbb) hr h
          exact xor_mask_ne b e he (crc32_byte_inj_byte c _ _ hc hbe hbb h3)
      | succ j =>
          simp only [xor_at, List.foldl_cons]
          exact ih _ j (crc32_byte_lt c b hc hbb) hr (by simpa using hi)

theorem calc_fcs_lt (data : List Nat) (len : Nat) (hb : ∀ b ∈ data, b < 256) :
    calc_fcs data len < 2 ^ 32 := by
  unfold calc_fcs
  apply Nat.xor_lt_two_pow _ (by decide)
  exact crc32_foldl_lt _ _ (by decide) (fun b hm => hb b (List.mem_of_mem_take hm))

end gr.ieee80211.utils

namespace gr.ieee80211.utils

/-! ## FCS: frames -/

theorem calc_fcs_append (d t : List Nat) :
    calc_fcs (d ++ t) d.length = calc_fcs d d.length := by
  simp [calc_fcs]

theorem extract_fcs_append (d : List Nat) (t0 t1 t2 t3 : Nat) :
    extract_fcs (d ++ [t0, t1, t2, t3]) (d.length + 4)
      = t0 + t1 * 2 ^ 8 + t2 * 2 ^ 16 + t3 * 2 ^ 24 := by
  have h0 : d.length + 4 - 4 = d.length + 0 := by omega
  have h1 : d.length + 4 - 3 = d.length + 1 := by omega
  have h2 : d.length + 4 - 2 = d.length + 2 := by omega
  have h3 : d.length + 4 - 1 = d.length + 3 := by omega
  unfold extract_fcs
  rw [h0, h1, h2, h3]
  simp only [List.getD_eq_getElem?_getD]
  rw [List.getElem?_append_right (by omega), List.getElem?_append_right (by omega),
    List.getElem?_append_right (by omega), List.getElem?_append_right (by omega)]
  simp

theorem validate_fcs_append (d : List Nat) (t0 t1 t2 t3 : Nat) :
    validate_fcs (d ++ [t0, t1, t2, t3]) (d.length + 4)
      = (calc_fcs d d.length == t0 + t1 * 2 ^ 8 + t2 * 2 ^ 16 + t3 * 2 ^ 24) := by
  unfold validate_fcs
  rw [if_neg (by omega), extract_fcs_append]
  have h : d.length + 4 - 4 = d.length := by omega
  rw [h, calc_fcs_append]

theorem fcs_bytes_decode (x : Nat) (hx : x < 2 ^ 32) :
    x % 256 + x / 2 ^ 8 % 256 * 2 ^ 8 + x / 2 ^ 16 % 256 * 2 ^ 16 + x / 2 ^ 24 % 256 * 2 ^ 24
      = x := by
  norm_num at hx ⊢
  omega

/-- The frame built from data and its own FCS validates, and the FCS read back
from it is the computed one. -/
theorem append_fcs_valid (d : List Nat) (hb : ∀ b ∈ d, b < 256) :
    validate_fcs (append_fcs d) (d.length + 4) = true
      ∧ extract_fcs (append_fcs d) (d.length + 4) = calc_fcs d d.length := by
  have hx := calc_fcs_lt d d.length hb
  unfold append_fcs fcs_bytes
  rw [validate_fcs_append, extract_fcs_append, fcs_bytes_decode _ hx]
  simp

theorem append_fcs_bytes (d : List Nat) (hb : ∀ b ∈ d, b < 256) :
    ∀ b ∈ append_fcs d, b < 256 := by
  intro b hm
  simp only [append_fcs, fcs_bytes, List.mem_append, List.mem_cons, List.mem_singleton,
    List.not_mem_nil, or_false] at hm
  rcases hm with hm | rfl | rfl | rfl | rfl
  · exact hb b hm
  all_goals omega

theorem append_fcs_length (d : List Nat) : (append_fcs d).length = d.length + 4 := by
  simp [append_fcs, fcs_bytes]

/-- Any change confined to one byte of an accepted frame, data or FCS, makes
the frame invalid. -/
theorem validate_fcs_xor_at_split (d : List Nat) (t0 t1 t2 t3 : Nat)
    (hd : ∀ b ∈ d, b < 256) (h0 : t0 < 256) (h1 : t1 < 256) (h2 : t2 < 256) (h3 : t3 < 256)
    (hv : validate_fcs (d ++ [t0, t1, t2, t3]) (d.length + 4) = true)
    (i e : Nat) (hi : i < d.length + 4) (he : e ≠ 0) (he2 : e < 256) :
    validate_fcs (xor_at (d ++ [t0, t1, t2, t3]) i e) (d.length + 4) = false := by
  rw [validate_fcs_append] at hv
  have hv2 : calc_fcs d d.length = t0 + t1 * 2 ^ 8 + t2 * 2 ^ 16 + t3 * 2 ^ 24 := by
    simpa using hv
  by_cases hlt : i < d.length
  · rw [xor_at_append_left d _ i e hlt]
    have hl : (xor_at d i e).length = d.length := xor_at_length d i e
    have key := validate_fcs_append (xor_at d i e) t0 t1 t2 t3
    rw [hl] at key
    rw [key]
    have hne : calc_fcs (xor_at d i e) d.length ≠ calc_fcs d d.length := by
      unfold calc_fcs
      intro h
      have h2 := Nat.xor_left_inj.mp h
      rw [List.take_of_length_le (by omega), List.take_of_length_le (by omega)] at h2
      exact crc32_foldl_xor_at d _ i e (by decide) hd hlt he he2 h2
    rw [← hv2]
    simpa using hne
  · obtain ⟨j, rfl⟩ : ∃ j, i = d.length + j := ⟨i - d.length, by omega⟩
    have hj : j < 4 := by omega
    rw [xor_at_append_right]
    have b0 : t0 ^^^ e < 256 := Nat.xor_lt_two_pow (n := 8) h0 he2
    have b1 : t1 ^^^ e < 256 := Nat.xor_lt_two_pow (n := 8) h1 he2
    have b2 : t2 ^^^ e < 256 := Nat.xor_lt_two_pow (n := 8) h2 he2
    have b3 : t3 ^^^ e < 256 := Nat.xor_lt_two_pow (n := 8) h3 he2
    have n0 := xor_mask_ne t0 e he
    have n1 := xor_mask_ne t1 e he
    have n2 := xor_mask_ne t2 e he
    have n3 := xor_mask_ne t3 e he
    interval_cases j
    · simp only [xor_at]
      rw [validate_fcs_append, hv2]
      simp only [beq_eq_false_iff_ne, ne_eq]
      omega
    · simp only [xor_at]
      rw [validate_fcs_append, hv2]
      simp only [beq_eq_false_iff_ne, ne_eq]
      omega
    · simp only [xor_at]
      rw [validate_fcs_append, hv2]
      simp only [beq_eq_false_iff_ne, ne_eq]
      omega
    · simp only [xor_at]
      rw [validate_fcs_append, hv2]
      simp only [beq_eq_false_iff_ne, ne_eq]
      omega

/-- A list of at least four bytes is its front followed by its last four. -/
theorem split_last_four (f : List Nat) (h : 4 ≤ f.length) :
    ∃ d t0 t1 t2 t3, f = d ++ [t0, t1, t2, t3] := by
  have hl : (f.drop (f.length - 4)).length = 4 := by simp; omega
  refine ⟨f.take (f.length - 4), ?_⟩
  match hf : f.drop (f.length - 4), hl with
  | [t0, t1, t2, t3], _ =>
      exact ⟨t0, t1, t2, t3, by rw [← hf, List.take_append_drop]⟩

theorem validate_fcs_xor_at (f : List Nat) (hb : ∀ b ∈ f, b < 256)
    (hv : validate_fcs f f.length = true)
    (i e : Nat) (hi : i < f.length) (he : e ≠ 0) (he2 : e < 256) :
    validate_fcs (xor_at f i e) f.length = false := by
  have h4 : 4 ≤ f.length := by
    by_contra hlt
    simp [validate_fcs, show f.length < 4 by omega] at hv
  obtain ⟨d, t0, t1, t2, t3, rfl⟩ := split_last_four f h4
  have hlen : (d ++ [t0, t1, t2, t3]).length = d.length + 4 := by simp
  rw [hlen] at hv hi ⊢
  exact validate_fcs_xor_at_split d t0 t1 t2 t3 (fun b hm => hb b (by simp [hm]))
    (hb t0 (by simp)) (hb t1 (by simp)) (hb t2 (by simp)) (hb t3 (by simp)) hv i e hi he he2

theorem one_shiftLeft_mask (k : Nat) (hk : k < 8) : 1 <<< k ≠ 0 ∧ 1 <<< k < 256 := by
  interval_cases k <;> decide

end gr.ieee80211.utils

namespace gr.ieee80211.utils

/-! ## CRC-16: the register update is injective -/

theorem xor_mod_two_pow (a b n : Nat) :
    (a ^^^ b) % 2 ^ n = (a % 2 ^ n) ^^^ (b % 2 ^ n) := by
  apply Nat.eq_of_testBit_eq
  intro i
  simp only [Nat.testBit_mod_two_pow, Nat.testBit_xor]
  by_cases h : i < n <;> simp [h]

theorem and_top_bit (c : Nat) : (c &&& 0x8000 = 0x8000) ↔ c / 2 ^ 15 % 2 = 1 := by
  have h : (0x8000 : Nat) = 2 ^ 15 := by norm_num
  rw [h]
  constructor
  · intro hc
    have ht : (c &&& 2 ^ 15).testBit 15 = true := by rw [hc]; exact Nat.testBit_two_pow_self
    rw [Nat.testBit_and, Nat.testBit_two_pow_self, Bool.and_true, Nat.testBit_to_div_mod] at ht
    simpa using ht
  · intro hc
    apply Nat.eq_of_testBit_eq
    intro i
    rw [Nat.testBit_and, Nat.testBit_two_pow]
    by_cases hi : 15 = i
    · subst hi
      rw [Nat.testBit_to_div_mod, hc]
      simp
    · simp [hi]

theorem crc16_shift_eq (c : Nat) :
    crc16_shift c
      = if c / 2 ^ 15 % 2 = 1 then (2 * (c % 2 ^ 15)) ^^^ 0x1021 else 2 * (c % 2 ^ 15) := by
  have hs : (c <<< 1) % 2 ^ 16 = 2 * (c % 2 ^ 15) := by
    rw [Nat.shiftLeft_eq]
    omega
  unfold crc16_shift
  by_cases h : c / 2 ^ 15 % 2 = 1
  · rw [if_pos ((and_top_bit c).mpr h), if_pos h, xor_mod_two_pow, hs]
    rfl
  · rw [if_neg (fun hc => h ((and_top_bit c).mp hc)), if_neg h, hs]

theorem crc16_shift_lt (c : Nat) : crc16_shift c < 2 ^ 16 := by
  rw [crc16_shift_eq]
  have h2 : 2 * (c % 2 ^ 15) < 2 ^ 16 := by omega
  split
  · exact Nat.xor_lt_two_pow h2 (by decide)
  · exact h2

theorem crc16_poly_odd (x : Nat) : ((2 * x) ^^^ 0x1021) % 2 = 1 := by
  rw [Nat.xor_mod_two_eq]
  omega

theorem crc16_shift_inj (c1 c2 : Nat) (h1 : c1 < 2 ^ 16) (h2 : c2 < 2 ^ 16)
    (h : crc16_shift c1 = crc16_shift c2) : c1 = c2 := by
  rw [crc16_shift_eq, crc16_shift_eq] at h
  have t1 := crc16_poly_odd (c1 % 2 ^ 15)
  have t2 := crc16_poly_odd (c2 % 2 ^ 15)
  by_cases p1 : c1 / 2 ^ 15 % 2 = 1 <;> by_cases p2 : c2 / 2 ^ 15 % 2 = 1
  · rw [if_pos p1, if_pos p2] at h
    have := Nat.xor_left_inj.mp h
    omega
  · rw [if_pos p1, if_neg p2] at h
    omega
  · rw [if_neg p1, if_pos p2] at h
    omega
  · rw [if_neg p1, if_neg p2] at h
    omega

theorem crc16_byte_lt (c b : Nat) : crc16_byte c b < 2 ^ 16 := by
  unfold crc16_byte
  exact crc16_shift_lt _

theorem crc16_shift8_inj (x y : Nat) (hx : x < 2 ^ 16) (hy : y < 2 ^ 16)
    (h : crc16_shift (crc16_shift (crc16_shift (crc16_shift
          (crc16_shift (crc16_shift (crc16_shift (crc16_shift x)))))))
       = crc16_shift (crc16_shift (crc16_shift (crc16_shift
          (crc16_shift (crc16_shift (crc16_shift (crc16_shift y)))))))) : x = y :=
  crc16_shift_inj _ _ hx hy (crc16_shift_inj _ _ (crc16_shift_lt _) (crc16_shift_lt _)
    (crc16_shift_inj _ _ (crc16_shift_lt _) (crc16_shift_lt _)
    (crc16_shift_inj _ _ (crc16_shift_lt _) (crc16_shift_lt _)
    (crc16_shift_inj _ _ (crc16_shift_lt _) (crc16_shift_lt _)
    (crc16_shift_inj _ _ (crc16_shift_lt _) (crc16_shift_lt _)
    (crc16_shift_inj _ _ (crc16_shift_lt _) (crc16_shift_lt _)
    (crc16_shift_inj _ _ (crc16_shift_lt _) (crc16_shift_lt _) h)))))))

theorem byte_shiftLeft_lt (b : Nat) (hb : b < 256) : b <<< 8 < 2 ^ 16 := by
  rw [Nat.shiftLeft_eq]
  omega

theorem crc16_byte_inj_crc (c1 c2 b : Nat) (h1 : c1 < 2 ^ 16) (h2 : c2 < 2 ^ 16)
    (hb : b < 256) (h : crc16_byte c1 b = crc16_byte c2 b) : c1 = c2 := by
  have hx : c1 ^^^ (b <<< 8) < 2 ^ 16 := Nat.xor_lt_two_pow h1 (byte_shiftLeft_lt b hb)
  have hy : c2 ^^^ (b <<< 8) < 2 ^ 16 := Nat.xor_lt_two_pow h2 (byte_shiftLeft_lt b hb)
  exact Nat.xor_left_inj.mp (crc16_shift8_inj _ _ hx hy h)

theorem crc16_byte_inj_byte (c b1 b2 : Nat) (hc : c < 2 ^ 16)
    (hb1 : b1 < 256) (hb2 : b2 < 256) (h : crc16_byte c b1 = crc16_byte c b2) : b1 = b2 := by
  have hx : c ^^^ (b1 <<< 8) < 2 ^ 16 := Nat.xor_lt_two_pow hc (byte_shiftLeft_lt b1 hb1)
  have hy : c ^^^ (b2 <<< 8) < 2 ^ 16 := Nat.xor_lt_two_pow hc (byte_shiftLeft_lt b2 hb2)
  have h3 : b1 <<< 8 = b2 <<< 8 := Nat.xor_right_inj.mp (crc16_shift8_inj _ _ hx hy h)
  rw [Nat.shiftLeft_eq, Nat.shiftLeft_eq] at h3
  omega

theorem crc16_foldl_lt (data : List Nat) (c : Nat) (hc : c < 2 ^ 16) :
    data.foldl crc16_byte c < 2 ^ 16 := by
  induction data generalizing c with
  | nil => simpa using hc
  | cons b rest ih =>
      simp only [List.foldl_cons]
      exact ih _ (crc16_byte_lt c b)

theorem crc16_foldl_inj (data : List Nat) (c1 c2 : Nat) (h1 : c1 < 2 ^ 16) (h2 : c2 < 2 ^ 16)
    (hb : ∀ b ∈ data, b < 256)
    (h : data.foldl crc16_byte c1 = data.foldl crc16_byte c2) : c1 = c2 := by
  induction data generalizing c1 c2 with
  | nil => simpa using h
  | cons b rest ih =>
      simp only [List.foldl_cons] at h
      have hbb : b < 256 := hb b (by simp)
      have hr : ∀ x ∈ rest, x < 256 := fun x hx => hb x (by simp [hx])
      exact crc16_byte_inj_crc c1 c2 b h1 h2 hbb
        (ih _ _ (crc16_byte_lt c1 b) (crc16_byte_lt c2 b) hr h)

/-- A change confined to one header byte changes the CRC-16 register. -/
theorem crc16_foldl_xor_at (data : List Nat) (c i e : Nat) (hc : c < 2 ^ 16)
    (hb : ∀ b ∈ data, b < 256) (hi : i < data.length) (he : e ≠ 0) (he2 : e < 256) :
    (xor_at data i e).foldl crc16_byte c ≠ data.foldl crc16_byte c := by
  induction data generalizing c i with
  | nil => simp at hi
  | cons b rest ih =>
      have hbb : b < 256 := hb b (by simp)
      have hr : ∀ x ∈ rest, x < 256 := fun x hx => hb x (by simp [hx])
      cases i with
      | zero =>
          simp only [xor_at, List.foldl_cons]
          intro h
          have hbe : b ^^^ e < 256 := Nat.xor_lt_two_pow (n := 8) hbb he2
          have h3 := crc16_foldl_inj rest _ _ (crc16_byte_lt c _) (crc16_byte_lt c b) hr h
          exact xor_mask_ne b e he (crc16_byte_inj_byte c _ _ hc hbe hbb h3)
      | succ j =>
          simp only [xor_at, List.foldl_cons]
          exact ih _ j (crc16_byte_lt c b) hr (by simpa using hi)

theorem calc_plcp_crc16_lt (header : List Nat) : calc_plcp_crc16 header < 2 ^ 16 :=
  crc16_foldl_lt _ _ (by decide)

/-! ## PLCP header with CRC-16 -/

theorem validate_plcp_crc16_six (s0 s1 s2 s3 c0 c1 : Nat) :
    validate_plcp_crc16 [s0, s1, s2, s3, c0, c1]
      = (calc_plcp_crc16 [s0, s1, s2, s3] == c0 + c1 * 2 ^ 8) := by
  simp [validate_plcp_crc16, calc_plcp_crc16]

/-- The header built from four bytes and their own CRC-16 validates. -/
theorem append_plcp_crc16_valid (h : List Nat) (hl : h.length = 4) :
    validate_plcp_crc16 (append_plcp_crc16 h) = true := by
  match h, hl with
  | [s0, s1, s2, s3], _ =>
      have hx := calc_plcp_crc16_lt [s0, s1, s2, s3]
      simp only [append_plcp_crc16, crc16_bytes, List.cons_append, List.nil_append]
      rw [validate_plcp_crc16_six]
      simp only [beq_iff_eq]
      norm_num at hx ⊢
      omega

/-- Any change confined to one byte of an accepted 6-byte header, header field
or CRC, makes the header invalid. -/
theorem validate_plcp_crc16_xor_at (hdr : List Nat) (hl : hdr.length = 6)
    (hb : ∀ b ∈ hdr, b < 256) (hv : validate_plcp_crc16 hdr = true)
    (i e : Nat) (hi : i < 6) (he : e ≠ 0) (he2 : e < 256) :
    validate_plcp_crc16 (xor_at hdr i e) = false := by
  match hdr, hl with
  | [s0, s1, s2, s3, c0, c1], _ =>
      rw [validate_plcp_crc16_six] at hv
      have hv2 : calc_plcp_crc16 [s0, s1, s2, s3] = c0 + c1 * 2 ^ 8 := by simpa using hv
      have hc0 : c0 < 256 := hb c0 (by simp)
      have hc1 : c1 < 256 := hb c1 (by simp)
      have hs : ∀ b ∈ [s0, s1, s2, s3], b < 256 := fun b hm => hb b (by
        simp only [List.mem_cons, List.mem_singleton, List.not_mem_nil, or_false] at hm ⊢
        tauto)
      by_cases hlt : i < 4
      · have hsplit : xor_at [s0, s1, s2, s3, c0, c1] i e
            = xor_at [s0, s1, s2, s3] i e ++ [c0, c1] :=
          xor_at_append_left [s0, s1, s2, s3] [c0, c1] i e (by simpa using hlt)
        have hlen : (xor_at [s0, s1, s2, s3] i e).length = 4 := by rw [xor_at_length]; rfl
        have hne := crc16_foldl_xor_at [s0, s1, s2, s3] 0xFFFF i e (by decide) hs
          (by simpa using hlt) he he2
        rw [hsplit]
        match hx : xor_at [s0, s1, s2, s3] i e, hlen with
        | [r0, r1, r2, r3], _ =>
            rw [hx] at hne
            simp only [List.cons_append, List.nil_append]
            rw [validate_plcp_crc16_six, ← hv2]
            simp only [beq_eq_false_iff_ne, ne_eq]
            simpa [calc_plcp_crc16] using hne
      · have n0 := xor_mask_ne c0 e he
        have n1 := xor_mask_ne c1 e he
        have b0 : c0 ^^^ e < 256 := Nat.xor_lt_two_pow (n := 8) hc0 he2
        have b1 : c1 ^^^ e < 256 := Nat.xor_lt_two_pow (n := 8) hc1 he2
        have h45 : i = 4 ∨ i = 5 := by omega
        rcases h45 with rfl | rfl
        · simp only [xor_at]
          rw [validate_plcp_crc16_six, hv2]
          simp only [beq_eq_false_iff_ne, ne_eq]
          omega
        · simp only [xor_at]
          rw [validate_plcp_crc16_six, hv2]
          simp only [beq_eq_false_iff_ne, ne_eq]
          omega

theorem append_plcp_crc16_bytes (h : List Nat) (hb : ∀ b ∈ h, b < 256) :
    ∀ b ∈ append_plcp_crc16 h, b < 256 := by
  intro b hm
  simp only [append_plcp_crc16, crc16_bytes, List.mem_append, List.mem_cons,
    List.mem_singleton, List.not_mem_nil, or_false] at hm
  rcases hm with hm | rfl | rfl
  · exact hb b hm
  all_goals omega

theorem append_plcp_crc16_length (h : List Nat) (hl : h.length = 4) :
    (append_plcp_crc16 h).length = 6 := by
  simp [append_plcp_crc16, crc16_bytes, hl]

end gr.ieee80211.utils

namespace gr.ieee80211

/-! ## Rate catalog: proofs -/

theorem rate_table_keys_declared : rate_table.map Prod.fst = wifi_rate.declared := by
  decide

/-- The declared enumerators are the identifiers with values 0 to 32. -/
theorem mem_declared_iff (r : wifi_rate) :
    r ∈ wifi_rate.declared ↔ 0 ≤ r.val ∧ r.val ≤ 32 := by
  obtain ⟨v⟩ := r
  simp only [wifi_rate.declared, wifi_rate.dsss_rates, wifi_rate.ofdm_rates, wifi_rate.ht_rates,
    wifi_rate.vht_rates, List.cons_append, List.nil_append, wifi_rate.DSSS_1M_LONG, wifi_rate.DSSS_2M_LONG,
    wifi_rate.DSSS_5_5M_LONG, wifi_rate.DSSS_11M_LONG, wifi_rate.DSSS_2M_SHORT,
    wifi_rate.DSSS_5_5M_SHORT, wifi_rate.DSSS_11M_SHORT, wifi_rate.OFDM_6M, wifi_rate.OFDM_9M,
    wifi_rate.OFDM_12M, wifi_rate.OFDM_18M, wifi_rate.OFDM_24M, wifi_rate.OFDM_36M,
    wifi_rate.OFDM_48M, wifi_rate.OFDM_54M, wifi_rate.HT_MCS0_20MHz, wifi_rate.HT_MCS1_20MHz,
    wifi_rate.HT_MCS2_20MHz, wifi_rate.HT_MCS3_20MHz, wifi_rate.HT_MCS4_20MHz,
    wifi_rate.HT_MCS5_20MHz, wifi_rate.HT_MCS6_20MHz, wifi_rate.HT_MCS7_20MHz,
    wifi_rate.VHT_MCS0_20MHz, wifi_rate.VHT_MCS1_20MHz, wifi_rate.VHT_MCS2_20MHz,
    wifi_rate.VHT_MCS3_20MHz, wifi_rate.VHT_MCS4_20MHz, wifi_rate.VHT_MCS5_20MHz,
    wifi_rate.VHT_MCS6_20MHz, wifi_rate.VHT_MCS7_20MHz, wifi_rate.VHT_MCS8_20MHz,
    wifi_rate.VHT_MCS9_20MHz, List.mem_cons, List.mem_singleton, List.not_mem_nil, or_false,
    wifi_rate.mk.injEq]
  omega

theorem lookup_none_iff (r : wifi_rate) :
    rate_table.lookup r = none ↔ r ∉ wifi_rate.declared := by
  rw [← rate_table_keys_declared, List.lookup_eq_none_iff]
  simp only [List.mem_map, not_exists, not_and, bne_iff_ne, ne_eq]
  constructor
  · intro h p hp hr
    exact h p hp hr.symm
  · intro h p hp hr
    exact h p hp hr.symm

end gr.ieee80211

namespace gr.ieee80211

/-! ## `float` literals of the rate table

Every Mbps literal of the table but `86.7f` is a binary32 number. -/

theorem f32_1 : f32 1 = 1 := by
  simp [f32, binade, round_half_even, Nat.log2]
  all_goals norm_num

theorem f32_2 : f32 2 = 2 := by
  simp [f32, binade, round_half_even, Nat.log2]
  all_goals norm_num

theorem f32_11 : f32 11 = 11 := by
  simp [f32, binade, round_half_even, Nat.log2]
  all_goals norm_num

theorem f32_6 : f32 6 = 6 := by
  simp [f32, binade, round_half_even, Nat.log2]
  all_goals norm_num

theorem f32_9 : f32 9 = 9 := by
  simp [f32, binade, round_half_even, Nat.log2]
  all_goals norm_num

theorem f32_12 : f32 12 = 12 := by
  simp [f32, binade, round_half_even, Nat.log2]
  all_goals norm_num

theorem f32_18 : f32 18 = 18 := by
  simp [f32, binade, round_half_even, Nat.log2]
  all_goals norm_num

theorem f32_24 : f32 24 = 24 := by
  simp [f32, binade, round_half_even, Nat.log2]
  all_goals norm_num

theorem f32_36 : f32 36 = 36 := by
  simp [f32, binade, round_half_even, Nat.log2]
  all_goals norm_num

theorem f32_48 : f32 48 = 48 := by
  simp [f32, binade, round_half_even, Nat.log2]
  all_goals norm_num

theorem f32_54 : f32 54 = 54 := by
  simp [f32, binade, round_half_even, Nat.log2]
  all_goals norm_num

theorem f32_13 : f32 13 = 13 := by
  simp [f32, binade, round_half_even, Nat.log2]
  all_goals norm_num

theorem f32_26 : f32 26 = 26 := by
  simp [f32, binade, round_half_even, Nat.log2]
  all_goals norm_num

theorem f32_39 : f32 39 = 39 := by
  simp [f32, binade, round_half_even, Nat.log2]
  all_goals norm_num

theorem f32_52 : f32 52 = 52 := by
  simp [f32, binade, round_half_even, Nat.log2]
  all_goals norm_num

theorem f32_65 : f32 65 = 65 := by
  simp [f32, binade, round_half_even, Nat.log2]
  all_goals norm_num

theorem f32_78 : f32 78 = 78 := by
  simp [f32, binade, round_half_even, Nat.log2]
  all_goals norm_num

theorem f32_5_5 : f32 5.5 = 5.5 := by
  have h1 : (5.5 : ℚ).num = 11 := by norm_num
  have h2 : (5.5 : ℚ).den = 2 := by norm_num
  simp [f32, binade, round_half_even, Nat.log2, h1, h2]
  all_goals norm_num

theorem f32_6_5 : f32 6.5 = 6.5 := by
  have h1 : (6.5 : ℚ).num = 13 := by norm_num
  have h2 : (6.5 : ℚ).den = 2 := by norm_num
  simp [f32, binade, round_half_even, Nat.log2, h1, h2]
  all_goals norm_num

theorem f32_19_5 : f32 19.5 = 19.5 := by
  have h1 : (19.5 : ℚ).num = 39 := by norm_num
  have h2 : (19.5 : ℚ).den = 2 := by norm_num
  simp [f32, binade, round_half_even, Nat.log2, h1, h2]
  all_goals norm_num

theorem f32_58_5 : f32 58.5 = 58.5 := by
  have h1 : (58.5 : ℚ).num = 117 := by norm_num
  have h2 : (58.5 : ℚ).den = 2 := by norm_num
  simp [f32, binade, round_half_even, Nat.log2, h1, h2]
  all_goals norm_num

/-- The threshold literal `2.3f` of `test_chip_sync_creation`. -/
theorem f32_2_3 : f32 2.3 = 9646899 / 4194304 := by
  have h1 : (2.3 : ℚ).num = 23 := by norm_num
  have h2 : (2.3 : ℚ).den = 10 := by norm_num
  simp [f32, binade, round_half_even, Nat.log2, h1, h2]
  all_goals norm_num

/-- The literal `86.7f` is not the decimal 86.7: the binary32 number nearest
to it is 11363942 / 2^17 = 86.6999969482421875. -/
theorem f32_86_7 : f32 86.7 = 11363942 / 131072 := by
  have h1 : (86.7 : ℚ).num = 867 := by norm_num
  have h2 : (86.7 : ℚ).den = 10 := by norm_num
  simp [f32, binade, round_half_even, Nat.log2, h1, h2]
  all_goals norm_num

end gr.ieee80211

namespace gr.ieee80211

/-! ## Rate catalog: lookups -/

theorem get_rate_info_undeclared (r : wifi_rate) (h : r ∉ wifi_rate.declared) :
    get_rate_info r = .error (.invalid_argument "Unknown WiFi rate") := by
  unfold get_rate_info
  rw [(lookup_none_iff r).mpr h]

theorem get_rate_info_declared (r : wifi_rate) (h : r ∈ wifi_rate.declared) :
    ∃ info, get_rate_info r = .ok info ∧ (r, info) ∈ rate_table ∧ info.rate = r := by
  have hrate : ∀ p ∈ rate_table, p.2.rate = p.1 := by decide
  unfold get_rate_info
  cases hl : rate_table.lookup r with
  | none => exact absurd h ((lookup_none_iff r).mp hl)
  | some info =>
      have hm : (r, info) ∈ rate_table := by
        obtain ⟨l1, l2, heq, _⟩ := List.lookup_eq_some_iff.mp hl
        rw [heq]
        simp
      exact ⟨info, rfl, hm, hrate (r, info) hm⟩

/-- C2. `get_rate_info` raises `invalid_argument` exactly for the identifiers
that are not declared enumerators of `wifi_rate`: for each of the 33 declared
enumerators (7 DSSS/CCK, 8 OFDM, 8 HT, 10 VHT; the values 0 to 32) it returns
the catalog entry of that rate, and for every other identifier it raises. -/
theorem get_rate_info_raises_iff_undeclared (r : wifi_rate) :
    (get_rate_info r = .error (.invalid_argument "Unknown WiFi rate")
        ↔ r ∉ wifi_rate.declared)
      ∧ ((∃ info, get_rate_info r = .ok info ∧ (r, info) ∈ rate_table ∧ info.rate = r)
        ↔ r ∈ wifi_rate.declared)
      ∧ (r ∈ wifi_rate.declared ↔ 0 ≤ r.val ∧ r.val ≤ 32)
      ∧ wifi_rate.dsss_rates.length = 7 ∧ wifi_rate.ofdm_rates.length = 8
      ∧ wifi_rate.ht_rates.length = 8 ∧ wifi_rate.vht_rates.length = 10
      ∧ wifi_rate.declared.length = 33 ∧ wifi_rate.declared.Nodup := by
  refine ⟨⟨?_, get_rate_info_undeclared r⟩, ⟨?_, get_rate_info_declared r⟩,
    mem_declared_iff r, rfl, rfl, rfl, rfl, rfl, by decide⟩
  · intro he hd
    obtain ⟨info, hok, _⟩ := get_rate_info_declared r hd
    rw [hok] at he
    cases he
  · rintro ⟨info, hok, _⟩
    by_contra hd
    rw [get_rate_info_undeclared r hd] at hok
    cases hok

/-- C9. For each of the 33 enumerators `get_rate_mbps` returns the Mbps figure
documented for it in `wifi_rates.h`, held as a `float`: every figure but the
last is a binary32 number and is returned exactly; for VHT MCS9 the value is
the `float` literal `86.7f`. Every rate that `is_dsss_rate` accepts has a data
rate in 1, 2, 5.5, 11. -/
theorem get_rate_mbps_documented :
    (get_rate_mbps .DSSS_1M_LONG = .ok 1
      ∧ get_rate_mbps .DSSS_2M_LONG = .ok 2
      ∧ get_rate_mbps .DSSS_5_5M_LONG = .ok 5.5
      ∧ get_rate_mbps .DSSS_11M_LONG = .ok 11
      ∧ get_rate_mbps .DSSS_2M_SHORT = .ok 2
      ∧ get_rate_mbps .DSSS_5_5M_SHORT = .ok 5.5
      ∧ get_rate_mbps .DSSS_11M_SHORT = .ok 11
      ∧ get_rate_mbps .OFDM_6M = .ok 6
      ∧ get_rate_mbps .OFDM_9M = .ok 9
      ∧ get_rate_mbps .OFDM_12M = .ok 12
      ∧ get_rate_mbps .OFDM_18M = .ok 18
      ∧ get_rate_mbps .OFDM_24M = .ok 24
      ∧ get_rate_mbps .OFDM_36M = .ok 36
      ∧ get_rate_mbps .OFDM_48M = .ok 48
      ∧ get_rate_mbps .OFDM_54M = .ok 54
      ∧ get_rate_mbps .HT_MCS0_20MHz = .ok 6.5
      ∧ get_rate_mbps .HT_MCS1_20MHz = .ok 13
      ∧ get_rate_mbps .HT_MCS2_20MHz = .ok 19.5
      ∧ get_rate_mbps .HT_MCS3_20MHz = .ok 26
      ∧ get_rate_mbps .HT_MCS4_20MHz = .ok 39
      ∧ get_rate_mbps .HT_MCS5_20MHz = .ok 52
      ∧ get_rate_mbps .HT_MCS6_20MHz = .ok 58.5
      ∧ get_rate_mbps .HT_MCS7_20MHz = .ok 65
      ∧ get_rate_mbps .VHT_MCS0_20MHz = .ok 6.5
      ∧ get_rate_mbps .VHT_MCS1_20MHz = .ok 13
      ∧ get_rate_mbps .VHT_MCS2_20MHz = .ok 19.5
      ∧ get_rate_mbps .VHT_MCS3_20MHz = .ok 26
      ∧ get_rate_mbps .VHT_MCS4_20MHz = .ok 39
      ∧ get_rate_mbps .VHT_MCS5_20MHz = .ok 52
      ∧ get_rate_mbps .VHT_MCS6_20MHz = .ok 58.5
      ∧ get_rate_mbps .VHT_MCS7_20MHz = .ok 65
      ∧ get_rate_mbps .VHT_MCS8_20MHz = .ok 78
      ∧ get_rate_mbps .VHT_MCS9_20MHz = .ok (f32 86.7))
    ∧ ∀ r, is_dsss_rate r = .ok true →
        get_rate_mbps r = .ok 1 ∨ get_rate_mbps r = .ok 2
          ∨ get_rate_mbps r = .ok 5.5 ∨ get_rate_mbps r = .ok 11 := by
  refine ⟨⟨congrArg Except.ok f32_1,
    congrArg Except.ok f32_2,
    congrArg Except.ok f32_5_5,
    congrArg Except.ok f32_11,
    congrArg Except.ok f32_2,
    congrArg Except.ok f32_5_5,
    congrArg Except.ok f32_11,
    congrArg Except.ok f32_6,
    congrArg Except.ok f32_9,
    congrArg Except.ok f32_12,
    congrArg Except.ok f32_18,
    congrArg Except.ok f32_24,
    congrArg Except.ok f32_36,
    congrArg Except.ok f32_48,
    congrArg Except.ok f32_54,
    congrArg Except.ok f32_6_5,
    congrArg Except.ok f32_13,
    congrArg Except.ok f32_19_5,
    congrArg Except.ok f32_26,
    congrArg Except.ok f32_39,
    congrArg Except.ok f32_52,
    congrArg Except.ok f32_58_5,
    congrArg Except.ok f32_65,
    congrArg Except.ok f32_6_5,
    congrArg Except.ok f32_13,
    congrArg Except.ok f32_19_5,
    congrArg Except.ok f32_26,
    congrArg Except.ok f32_39,
    congrArg Except.ok f32_52,
    congrArg Except.ok f32_58_5,
    congrArg Except.ok f32_65,
    congrArg Except.ok f32_78,
    rfl⟩, ?_⟩
  intro r hr
  by_cases hd : r ∈ wifi_rate.declared
  · obtain ⟨v⟩ := r
    obtain ⟨h0, h1⟩ := (mem_declared_iff _).mp hd
    simp only at h0 h1
    have e1 : get_rate_mbps ⟨0⟩ = .ok 1 := congrArg Except.ok f32_1
    have e2 : get_rate_mbps ⟨1⟩ = .ok 2 := congrArg Except.ok f32_2
    have e3 : get_rate_mbps ⟨2⟩ = .ok 5.5 := congrArg Except.ok f32_5_5
    have e4 : get_rate_mbps ⟨3⟩ = .ok 11 := congrArg Except.ok f32_11
    have e5 : get_rate_mbps ⟨4⟩ = .ok 2 := congrArg Except.ok f32_2
    have e6 : get_rate_mbps ⟨5⟩ = .ok 5.5 := congrArg Except.ok f32_5_5
    have e7 : get_rate_mbps ⟨6⟩ = .ok 11 := congrArg Except.ok f32_11
    by_cases h7 : v ≤ 6
    · interval_cases v
      · exact Or.inl e1
      · exact Or.inr (Or.inl e2)
      · exact Or.inr (Or.inr (Or.inl e3))
      · exact Or.inr (Or.inr (Or.inr e4))
      · exact Or.inr (Or.inl e5)
      · exact Or.inr (Or.inr (Or.inl e6))
      · exact Or.inr (Or.inr (Or.inr e7))
    · exfalso
      have h8 : 7 ≤ v := by omega
      interval_cases v <;> exact absurd hr (by decide)
  · exfalso
    unfold is_dsss_rate at hr
    rw [get_rate_info_undeclared r hd] at hr
    cases hr

/-- The data rate of a DSSS rate, 5.5 Mbps CCK with short preamble, is one of
the four 802.11b rates. -/
theorem get_rate_mbps_documented_witness :
    is_dsss_rate .DSSS_5_5M_SHORT = .ok true
      ∧ (get_rate_mbps .DSSS_5_5M_SHORT = .ok 1 ∨ get_rate_mbps .DSSS_5_5M_SHORT = .ok 2
          ∨ get_rate_mbps .DSSS_5_5M_SHORT = .ok 5.5
          ∨ get_rate_mbps .DSSS_5_5M_SHORT = .ok 11) :=
  ⟨rfl, get_rate_mbps_documented.2 .DSSS_5_5M_SHORT rfl⟩

/-- C10. `is_dsss_rate` and `is_ofdm_rate` partition the catalog:
`is_dsss_rate` is true exactly for the seven DSSS enumerators, `is_ofdm_rate`
exactly for the 26 OFDM, HT and VHT enumerators, and for every declared rate
exactly one of the two is true. -/
theorem dsss_ofdm_partition (r : wifi_rate) :
    (is_dsss_rate r = .ok true ↔ r ∈ wifi_rate.dsss_rates)
      ∧ (is_ofdm_rate r = .ok true
          ↔ r ∈ wifi_rate.ofdm_rates ++ wifi_rate.ht_rates ++ wifi_rate.vht_rates)
      ∧ (r ∈ wifi_rate.declared →
          (is_dsss_rate r = .ok true ∧ is_ofdm_rate r = .ok false)
            ∨ (is_dsss_rate r = .ok false ∧ is_ofdm_rate r = .ok true))
      ∧ (wifi_rate.ofdm_rates ++ wifi_rate.ht_rates ++ wifi_rate.vht_rates).length = 26 := by
  by_cases hd : r ∈ wifi_rate.declared
  · obtain ⟨v⟩ := r
    obtain ⟨h0, h1⟩ := (mem_declared_iff _).mp hd
    simp only at h0 h1
    clear hd
    interval_cases v <;> decide
  · have herr := get_rate_info_undeclared r hd
    have hn1 : r ∉ wifi_rate.dsss_rates := fun hm => hd (by
      simp only [wifi_rate.declared, List.mem_append]; tauto)
    have hn2 : r ∉ wifi_rate.ofdm_rates ++ wifi_rate.ht_rates ++ wifi_rate.vht_rates :=
      fun hm => hd (by
        simp only [wifi_rate.declared, List.mem_append] at hm ⊢; tauto)
    refine ⟨iff_of_false ?_ hn1, iff_of_false ?_ hn2, fun h => absurd h hd, rfl⟩
    · unfold is_dsss_rate
      rw [herr]
      intro h
      cases h
    · unfold is_ofdm_rate
      rw [herr]
      intro h
      cases h

/-- A declared rate at which the partition is applied: 6 Mbps OFDM. -/
theorem dsss_ofdm_partition_witness :
    wifi_rate.OFDM_6M ∈ wifi_rate.declared
      ∧ ((is_dsss_rate .OFDM_6M = .ok true ∧ is_ofdm_rate .OFDM_6M = .ok false)
          ∨ (is_dsss_rate .OFDM_6M = .ok false ∧ is_ofdm_rate .OFDM_6M = .ok true)) :=
  ⟨by decide, (dsss_ofdm_partition .OFDM_6M).2.2.1 (by decide)⟩

end gr.ieee80211

namespace gr.ieee80211.utils

/-! ## Frame check sequence and PLCP CRC-16: verified properties -/

set_option maxRecDepth 4000 in
/-- The CRC-32 of the model has the check value of the Ethernet FCS: the
ASCII digits `123456789` give `0xCBF43926`. -/
theorem calc_fcs_check_value :
    calc_fcs [0x31, 0x32, 0x33, 0x34, 0x35, 0x36, 0x37, 0x38, 0x39] 9 = 0xCBF43926 := by
  decide

/-- The FCS of the data of `test_fcs_calculation` is not zero, as the test
checks. -/
theorem calc_fcs_test_nonzero : calc_fcs [0x01, 0x02, 0x03, 0x04, 0x05] 5 ≠ 0 := by
  decide

/-- The CRC-16 of the header of `test_plcp_crc16` is not zero, as the test
checks. -/
theorem calc_plcp_crc16_test_nonzero : calc_plcp_crc16 [0x0A, 0x04, 0x64, 0x00] ≠ 0 := by
  decide

/-- C3. For every byte sequence `d`, the frame made of `d` followed by the
four bytes of `calc_fcs(d)`, least-significant byte first, is accepted by
`validate_fcs` with `len = |d| + 4`, and `extract_fcs` of that frame is
`calc_fcs(d)`. -/
theorem fcs_roundtrip (d : List Nat) (hb : ∀ b ∈ d, b < 256) :
    validate_fcs (d ++ fcs_bytes (calc_fcs d d.length)) (d.length + 4) = true
      ∧ extract_fcs (d ++ fcs_bytes (calc_fcs d d.length)) (d.length + 4)
          = calc_fcs d d.length :=
  append_fcs_valid d hb

/-- The frame of `test_fcs_validation`: the 96 bytes 0 to 95 and their FCS. -/
theorem fcs_roundtrip_witness :
    (∀ b ∈ List.range 96, b < 256)
      ∧ validate_fcs (List.range 96 ++ fcs_bytes (calc_fcs (List.range 96) 96)) 100 = true
      ∧ extract_fcs (List.range 96 ++ fcs_bytes (calc_fcs (List.range 96) 96)) 100
          = calc_fcs (List.range 96) 96 :=
  ⟨by decide, fcs_roundtrip (List.range 96) (by decide)⟩

/-- C4. In every frame of bytes that `validate_fcs` accepts, in particular in
every data sequence followed by its FCS, flipping any single bit, in the data
or in the four FCS bytes, gives a frame that `validate_fcs` rejects. -/
theorem fcs_detects_bit_flip (f : List Nat) (hb : ∀ b ∈ f, b < 256)
    (hv : validate_fcs f f.length = true) (i k : Nat) (hi : i < f.length) (hk : k < 8) :
    validate_fcs (flip_bit f i k) f.length = false :=
  validate_fcs_xor_at f hb hv i (1 <<< k) hi (one_shiftLeft_mask k hk).1
    (one_shiftLeft_mask k hk).2

/-- The frame of `test_fcs_validation`, accepted as built, is rejected with
bit 7 of byte 50 flipped. -/
theorem fcs_detects_bit_flip_witness :
    validate_fcs (append_fcs (List.range 96)) (append_fcs (List.range 96)).length = true
      ∧ validate_fcs (flip_bit (append_fcs (List.range 96)) 50 7)
          (append_fcs (List.range 96)).length = false :=
  have hv : validate_fcs (append_fcs (List.range 96)) (append_fcs (List.range 96)).length
      = true := by
    rw [append_fcs_length]
    exact (append_fcs_valid _ (by decide)).1
  ⟨hv, fcs_detects_bit_flip (append_fcs (List.range 96)) (append_fcs_bytes _ (by decide)) hv
    50 7 (by rw [append_fcs_length]; decide) (by decide)⟩

/-- The corruption of `test_fcs_validation` itself, `frame[50] ^= 0xFF`, is
rejected. -/
theorem fcs_test_corruption_rejected :
    validate_fcs (xor_at (append_fcs (List.range 96)) 50 0xFF) 100 = false := by
  have h := validate_fcs_xor_at (append_fcs (List.range 96))
    (append_fcs_bytes _ (by decide))
    (by rw [append_fcs_length]; exact (append_fcs_valid _ (by decide)).1)
    50 0xFF (by rw [append_fcs_length]; decide) (by decide) (by decide)
  rw [append_fcs_length] at h
  exact h

/-- C5. For every 4-byte PLCP header `h`, the 6-byte header made of `h`
followed by `calc_plcp_crc16(h)` stored low byte first is accepted by
`validate_plcp_crc16`. -/
theorem plcp_crc16_roundtrip (h : List Nat) (hl : h.length = 4) :
    validate_plcp_crc16 (h ++ crc16_bytes (calc_plcp_crc16 h)) = true :=
  append_plcp_crc16_valid h hl

/-- The header of `test_plcp_crc16`: 1 Mbps, LENGTH = 100. -/
theorem plcp_crc16_roundtrip_witness :
    validate_plcp_crc16
      ([0x0A, 0x04, 0x64, 0x00] ++ crc16_bytes (calc_plcp_crc16 [0x0A, 0x04, 0x64, 0x00]))
      = true :=
  plcp_crc16_roundtrip [0x0A, 0x04, 0x64, 0x00] rfl

/-- C6. For every 4-byte PLCP header `h`, flipping any one of the 48 bits of
the 6-byte header `h` followed by its little-endian CRC-16 gives a header that
`validate_plcp_crc16` rejects. -/
theorem plcp_crc16_detects_bit_flip (h : List Nat) (hl : h.length = 4)
    (hb : ∀ b ∈ h, b < 256) (i k : Nat) (hi : i < 6) (hk : k < 8) :
    validate_plcp_crc16 (flip_bit (h ++ crc16_bytes (calc_plcp_crc16 h)) i k) = false :=
  validate_plcp_crc16_xor_at (append_plcp_crc16 h) (append_plcp_crc16_length h hl)
    (append_plcp_crc16_bytes h hb) (append_plcp_crc16_valid h hl) i (1 <<< k) hi
    (one_shiftLeft_mask k hk).1 (one_shiftLeft_mask k hk).2

/-- The header of `test_plcp_crc16` with bit 3 of its LENGTH low byte
flipped. -/
theorem plcp_crc16_detects_bit_flip_witness :
    validate_plcp_crc16
      (flip_bit ([0x0A, 0x04, 0x64, 0x00]
        ++ crc16_bytes (calc_plcp_crc16 [0x0A, 0x04, 0x64, 0x00])) 2 3) = false :=
  plcp_crc16_detects_bit_flip [0x0A, 0x04, 0x64, 0x00] rfl (by decide) 2 3 (by decide)
    (by decide)

end gr.ieee80211.utils

namespace gr.ieee80211

/-! ## Barker-11 and chip synchronizer construction: verified properties -/

/-- C7. The zero-lag autocorrelation of the Barker-11 sequence is exactly 11,
and for every lag from 1 to 10 the aperiodic autocorrelation has absolute
value at most 1. -/
theorem barker_autocorrelation :
    autocorr = 11 ∧ ∀ lag, 1 ≤ lag → lag ≤ 10 → |corr lag| ≤ 1 := by
  refine ⟨by decide, ?_⟩
  intro lag h1 h10
  rw [abs_le]
  interval_cases lag <;> decide

/-- The first sidelobe of the Barker-11 autocorrelation. -/
theorem barker_autocorrelation_witness : |corr 1| ≤ 1 :=
  barker_autocorrelation.2 1 (by decide) (by decide)

/-- C8. `chip_sync_c::make(longPre, threshold)` fails with an invalid-argument
error for every negative threshold and either preamble flag, and creates the
synchronizer for every positive threshold. -/
theorem chip_sync_make_threshold (longPre : Bool) (threshold : ℚ) :
    (threshold < 0 →
        ∃ what, chip_sync_c.make longPre threshold = .error (.invalid_argument what))
      ∧ (0 < threshold → chip_sync_c.make longPre threshold = .ok ⟨longPre, threshold⟩) := by
  constructor
  · intro h
    exact ⟨"threshold must be positive", by simp [chip_sync_c.make, h]⟩
  · intro h
    have h2 : ¬ threshold < 0 := not_lt.mpr (le_of_lt h)
    simp [chip_sync_c.make, h2]

/-- The thresholds of `test_chip_sync_threshold` and
`test_chip_sync_creation`: `-1.0f` is refused, `0.5f`, `10.0f` and, with
either preamble flag, `2.3f` are accepted. -/
theorem chip_sync_make_threshold_witness :
    (∃ what, chip_sync_c.make true (-1) = .error (.invalid_argument what))
      ∧ chip_sync_c.make true (1 / 2) = .ok ⟨true, 1 / 2⟩
      ∧ chip_sync_c.make true 10 = .ok ⟨true, 10⟩
      ∧ chip_sync_c.make true (f32 2.3) = .ok ⟨true, f32 2.3⟩
      ∧ chip_sync_c.make false (f32 2.3) = .ok ⟨false, f32 2.3⟩ :=
  ⟨(chip_sync_make_threshold true (-1)).1 (by norm_num),
   (chip_sync_make_threshold true (1 / 2)).2 (by norm_num),
   (chip_sync_make_threshold true 10).2 (by norm_num),
   (chip_sync_make_threshold true (f32 2.3)).2 (by rw [f32_2_3]; norm_num),
   (chip_sync_make_threshold false (f32 2.3)).2 (by rw [f32_2_3]; norm_num)⟩

end gr.ieee80211

namespace gr.ieee80211

/-! ## Rate catalog: modulation, coding, bandwidth and preamble -/

/-- C11. Each of the seven DSSS rates has bandwidth 22 MHz and coding NONE,
with modulation DSSS at 1 and 2 Mbps and CCK at 5.5 and 11 Mbps; every OFDM, HT
and VHT rate has modulation OFDM, coding BCC and bandwidth 20 MHz. -/
theorem rate_info_modulation_coding_bandwidth (r : wifi_rate) :
    (r ∈ [wifi_rate.DSSS_1M_LONG, wifi_rate.DSSS_2M_LONG, wifi_rate.DSSS_2M_SHORT] →
        (get_rate_info r).map (fun i => (i.mod, i.coding, i.bandwidth_mhz))
          = .ok (modulation_type.DSSS, coding_type.NONE, 22))
      ∧ (r ∈ [wifi_rate.DSSS_5_5M_LONG, wifi_rate.DSSS_11M_LONG, wifi_rate.DSSS_5_5M_SHORT,
              wifi_rate.DSSS_11M_SHORT] →
        (get_rate_info r).map (fun i => (i.mod, i.coding, i.bandwidth_mhz))
          = .ok (modulation_type.CCK, coding_type.NONE, 22))
      ∧ (r ∈ wifi_rate.ofdm_rates ++ wifi_rate.ht_rates ++ wifi_rate.vht_rates →
        (get_rate_info r).map (fun i => (i.mod, i.coding, i.bandwidth_mhz))
          = .ok (modulation_type.OFDM, coding_type.BCC, 20))
      ∧ (get_rate_info wifi_rate.DSSS_11M_LONG).map
          (fun i => (i.mbps, i.bandwidth_mhz, i.mod, i.coding, i.long_preamble))
          = .ok (11, 22, modulation_type.CCK, coding_type.NONE, true) := by
  refine ⟨?_, ?_, ?_, congrArg (fun q => Except.ok
    (q, (22 : Int), modulation_type.CCK, coding_type.NONE, true)) f32_11⟩
  · intro h
    simp only [List.mem_cons, List.mem_singleton, List.not_mem_nil, or_false] at h
    rcases h with rfl | rfl | rfl <;> rfl
  · intro h
    simp only [List.mem_cons, List.mem_singleton, List.not_mem_nil, or_false] at h
    rcases h with rfl | rfl | rfl | rfl <;> rfl
  · intro h
    have hd : r ∈ wifi_rate.declared := by
      simp only [wifi_rate.declared, List.mem_append] at h ⊢
      tauto
    obtain ⟨v⟩ := r
    obtain ⟨h0, h1⟩ := (mem_declared_iff _).mp hd
    simp only at h0 h1
    clear hd
    interval_cases v <;> first | rfl | exact absurd h (by decide)

/-- One rate of each kind: 2 Mbps short preamble is DSSS, 11
Mbps long preamble is CCK, 54 Mbps OFDM is OFDM with BCC at 20 MHz. -/
theorem rate_info_modulation_coding_bandwidth_witness :
    (get_rate_info wifi_rate.DSSS_2M_SHORT).map (fun i => (i.mod, i.coding, i.bandwidth_mhz))
        = .ok (modulation_type.DSSS, coding_type.NONE, 22)
      ∧ (get_rate_info wifi_rate.DSSS_11M_LONG).map
          (fun i => (i.mod, i.coding, i.bandwidth_mhz))
        = .ok (modulation_type.CCK, coding_type.NONE, 22)
      ∧ (get_rate_info wifi_rate.OFDM_54M).map (fun i => (i.mod, i.coding, i.bandwidth_mhz))
        = .ok (modulation_type.OFDM, coding_type.BCC, 20) :=
  ⟨(rate_info_modulation_coding_bandwidth wifi_rate.DSSS_2M_SHORT).1 (by decide),
   (rate_info_modulation_coding_bandwidth wifi_rate.DSSS_11M_LONG).2.1 (by decide),
   (rate_info_modulation_coding_bandwidth wifi_rate.OFDM_54M).2.2.1 (by decide)⟩

end gr.ieee80211

namespace gr.ieee80211

/-- The only catalog entry with a data rate of 1 Mbps is `DSSS_1M_LONG`. -/
theorem get_rate_mbps_eq_one_iff (r : wifi_rate) :
    get_rate_mbps r = .ok 1 ↔ r = wifi_rate.DSSS_1M_LONG := by
  by_cases hd : r ∈ wifi_rate.declared
  · obtain ⟨v⟩ := r
    obtain ⟨h0, h1⟩ := (mem_declared_iff _).mp hd
    simp only at h0 h1
    clear hd
    interval_cases v
    · rw [show get_rate_mbps ⟨0⟩ = .ok (f32 1) from rfl, f32_1]
      norm_num [wifi_rate.DSSS_1M_LONG]
    · rw [show get_rate_mbps ⟨1⟩ = .ok (f32 2) from rfl, f32_2]
      norm_num [wifi_rate.DSSS_1M_LONG]
    · rw [show get_rate_mbps ⟨2⟩ = .ok (f32 5.5) from rfl, f32_5_5]
      norm_num [wifi_rate.DSSS_1M_LONG]
    · rw [show get_rate_mbps ⟨3⟩ = .ok (f32 11) from rfl, f32_11]
      norm_num [wifi_rate.DSSS_1M_LONG]
    · rw [show get_rate_mbps ⟨4⟩ = .ok (f32 2) from rfl, f32_2]
      norm_num [wifi_rate.DSSS_1M_LONG]
    · rw [show get_rate_mbps ⟨5⟩ = .ok (f32 5.5) from rfl, f32_5_5]
      norm_num [wifi_rate.DSSS_1M_LONG]
    · rw [show get_rate_mbps ⟨6⟩ = .ok (f32 11) from rfl, f32_11]
      norm_num [wifi_rate.DSSS_1M_LONG]
    · rw [show get_rate_mbps ⟨7⟩ = .ok (f32 6) from rfl, f32_6]
      norm_num [wifi_rate.DSSS_1M_LONG]
    · rw [show get_rate_mbps ⟨8⟩ = .ok (f32 9) from rfl, f32_9]
      norm_num [wifi_rate.DSSS_1M_LONG]
    · rw [show get_rate_mbps ⟨9⟩ = .ok (f32 12) from rfl, f32_12]
      norm_num [wifi_rate.DSSS_1M_LONG]
    · rw [show get_rate_mbps ⟨10⟩ = .ok (f32 18) from rfl, f32_18]
      norm_num [wifi_rate.DSSS_1M_LONG]
    · rw [show get_rate_mbps ⟨11⟩ = .ok (f32 24) from rfl, f32_24]
      norm_num [wifi_rate.DSSS_1M_LONG]
    · rw [show get_rate_mbps ⟨12⟩ = .ok (f32 36) from rfl, f32_36]
      norm_num [wifi_rate.DSSS_1M_LONG]
    · rw [show get_rate_mbps ⟨13⟩ = .ok (f32 48) from rfl, f32_48]
      norm_num [wifi_rate.DSSS_1M_LONG]
    · rw [show get_rate_mbps ⟨14⟩ = .ok (f32 54) from rfl, f32_54]
      norm_num [wifi_rate.DSSS_1M_LONG]
    · rw [show get_rate_mbps ⟨15⟩ = .ok (f32 6.5) from rfl, f32_6_5]
      norm_num [wifi_rate.DSSS_1M_LONG]
    · rw [show get_rate_mbps ⟨16⟩ = .ok (f32 13) from rfl, f32_13]
      norm_num [wifi_rate.DSSS_1M_LONG]
    · rw [show get_rate_mbps ⟨17⟩ = .ok (f32 19.5) from rfl, f32_19_5]
      norm_num [wifi_rate.DSSS_1M_LONG]
    · rw [show get_rate_mbps ⟨18⟩ = .ok (f32 26) from rfl, f32_26]
      norm_num [wifi_rate.DSSS_1M_LONG]
    · rw [show get_rate_mbps ⟨19⟩ = .ok (f32 39) from rfl, f32_39]
      norm_num [wifi_rate.DSSS_1M_LONG]
    · rw [show get_rate_mbps ⟨20⟩ = .ok (f32 52) from rfl, f32_52]
      norm_num [wifi_rate.DSSS_1M_LONG]
    · rw [show get_rate_mbps ⟨21⟩ = .ok (f32 58.5) from rfl, f32_58_5]
      norm_num [wifi_rate.DSSS_1M_LONG]
    · rw [show get_rate_mbps ⟨22⟩ = .ok (f32 65) from rfl, f32_65]
      norm_num [wifi_rate.DSSS_1M_LONG]
    · rw [show get_rate_mbps ⟨23⟩ = .ok (f32 6.5) from rfl, f32_6_5]
      norm_num [wifi_rate.DSSS_1M_LONG]
    · rw [show get_rate_mbps ⟨24⟩ = .ok (f32 13) from rfl, f32_13]
      norm_num [wifi_rate.DSSS_1M_LONG]
    · rw [show get_rate_mbps ⟨25⟩ = .ok (f32 19.5) from rfl, f32_19_5]
      norm_num [wifi_rate.DSSS_1M_LONG]
    · rw [show get_rate_mbps ⟨26⟩ = .ok (f32 26) from rfl, f32_26]
      norm_num [wifi_rate.DSSS_1M_LONG]
    · rw [show get_rate_mbps ⟨27⟩ = .ok (f32 39) from rfl, f32_39]
      norm_num [wifi_rate.DSSS_1M_LONG]
    · rw [show get_rate_mbps ⟨28⟩ = .ok (f32 52) from rfl, f32_52]
      norm_num [wifi_rate.DSSS_1M_LONG]
    · rw [show get_rate_mbps ⟨29⟩ = .ok (f32 58.5) from rfl, f32_58_5]
      norm_num [wifi_rate.DSSS_1M_LONG]
    · rw [show get_rate_mbps ⟨30⟩ = .ok (f32 65) from rfl, f32_65]
      norm_num [wifi_rate.DSSS_1M_LONG]
    · rw [show get_rate_mbps ⟨31⟩ = .ok (f32 78) from rfl, f32_78]
      norm_num [wifi_rate.DSSS_1M_LONG]
    · rw [show get_rate_mbps ⟨32⟩ = .ok (f32 86.7) from rfl, f32_86_7]
      norm_num [wifi_rate.DSSS_1M_LONG]
  · constructor
    · intro h
      unfold get_rate_mbps at h
      rw [get_rate_info_undeclared r hd] at h
      cases h
    · intro h
      exact absurd (by rw [h]; decide) hd

/-- C12. The `long_preamble` flag of a catalog entry is true exactly for the
four long-preamble 802.11b rates; it is false for the three short-preamble
DSSS rates and for every OFDM, HT and VHT rate, and no entry with a data rate
of 1 Mbps has it false. -/
theorem long_preamble_iff (r : wifi_rate) :
    ((get_rate_info r).map (fun i => i.long_preamble) = .ok true
        ↔ r ∈ [wifi_rate.DSSS_1M_LONG, wifi_rate.DSSS_2M_LONG, wifi_rate.DSSS_5_5M_LONG,
               wifi_rate.DSSS_11M_LONG])
      ∧ ((get_rate_info r).map (fun i => i.long_preamble) = .ok false
        ↔ r ∈ [wifi_rate.DSSS_2M_SHORT, wifi_rate.DSSS_5_5M_SHORT, wifi_rate.DSSS_11M_SHORT]
              ++ wifi_rate.ofdm_rates ++ wifi_rate.ht_rates ++ wifi_rate.vht_rates)
      ∧ ¬ ((get_rate_info r).map (fun i => i.long_preamble) = .ok false
            ∧ get_rate_mbps r = .ok 1) := by
  have h1M : (get_rate_info wifi_rate.DSSS_1M_LONG).map (fun i => i.long_preamble)
      ≠ .ok false := by decide
  refine ⟨?_, ?_, fun h => ?_⟩
  · by_cases hd : r ∈ wifi_rate.declared
    · obtain ⟨v⟩ := r
      obtain ⟨h0, h1⟩ := (mem_declared_iff _).mp hd
      simp only at h0 h1
      clear hd h1M
      interval_cases v <;> decide
    · rw [get_rate_info_undeclared r hd]
      refine iff_of_false (by intro h; cases h) (fun hm => hd ?_)
      simp only [wifi_rate.declared, wifi_rate.dsss_rates, List.mem_append, List.mem_cons,
        List.mem_singleton, List.not_mem_nil, or_false] at hm ⊢
      tauto
  · by_cases hd : r ∈ wifi_rate.declared
    · obtain ⟨v⟩ := r
      obtain ⟨h0, h1⟩ := (mem_declared_iff _).mp hd
      simp only at h0 h1
      clear hd h1M
      interval_cases v <;> decide
    · rw [get_rate_info_undeclared r hd]
      refine iff_of_false (by intro h; cases h) (fun hm => hd ?_)
      simp only [wifi_rate.declared, wifi_rate.dsss_rates, List.mem_append, List.mem_cons,
        List.mem_singleton, List.not_mem_nil, or_false] at hm ⊢
      tauto
  · rw [(get_rate_mbps_eq_one_iff r).mp h.2] at h
    exact h1M h.1

end gr.ieee80211

namespace gr.ieee80211

/-- The data rate of 1 Mbps comes with the long preamble. -/
theorem long_preamble_iff_witness :
    (get_rate_info wifi_rate.DSSS_1M_LONG).map (fun i => i.long_preamble) = .ok true :=
  (long_preamble_iff wifi_rate.DSSS_1M_LONG).1.mpr (by decide)

/-- C17. The wifi_rate with integer value `c` is in the catalog with
`is_dsss_rate` true exactly when `0 ≤ c ≤ 6`, the codes the prefixer test
constructs `ppdu_prefixer` with; these seven values are the seven DSSS
enumerators, and code 3 is `DSSS_11M_LONG`, 11 Mbps with long preamble. -/
theorem prefixer_rate_codes (c : Int) :
    (is_dsss_rate ⟨c⟩ = .ok true ↔ 0 ≤ c ∧ c ≤ 6)
      ∧ ((⟨c⟩ : wifi_rate) ∈ wifi_rate.dsss_rates ↔ 0 ≤ c ∧ c ≤ 6)
      ∧ (⟨3⟩ : wifi_rate) = wifi_rate.DSSS_11M_LONG
      ∧ (get_rate_info ⟨3⟩).map (fun i => (i.mbps, i.long_preamble)) = .ok (11, true) := by
  refine ⟨?_, ?_, rfl, congrArg (fun q => Except.ok (q, true)) f32_11⟩
  · by_cases hd : (⟨c⟩ : wifi_rate) ∈ wifi_rate.declared
    · obtain ⟨h0, h1⟩ := (mem_declared_iff _).mp hd
      simp only at h0 h1
      clear hd
      interval_cases c <;> decide
    · have hc : ¬ (0 ≤ c ∧ c ≤ 32) := fun h => hd ((mem_declared_iff _).mpr h)
      unfold is_dsss_rate
      rw [get_rate_info_undeclared _ hd]
      exact iff_of_false (by intro h; cases h) (by omega)
  · simp only [wifi_rate.dsss_rates, wifi_rate.DSSS_1M_LONG, wifi_rate.DSSS_2M_LONG,
      wifi_rate.DSSS_5_5M_LONG, wifi_rate.DSSS_11M_LONG, wifi_rate.DSSS_2M_SHORT,
      wifi_rate.DSSS_5_5M_SHORT, wifi_rate.DSSS_11M_SHORT, List.mem_cons, List.mem_singleton,
      List.not_mem_nil, or_false, wifi_rate.mk.injEq]
    omega

end gr.ieee80211

namespace gr.ieee80211.utils

/-- C16. `descramble` is the same function as `scramble`: for every buffer,
length and seed it leaves the buffer as `scramble` does, whatever function
stands in the place of `scramble`, and both default the seed to `0x1B`. -/
theorem descramble_eq_scramble :
    (∀ data len init, descramble data len init = scramble data len init)
      ∧ descramble = descramble_via scramble
      ∧ (∀ scramble_fn : List Nat → Nat → Nat → List Nat, descramble_via scramble_fn = scramble_fn)
      ∧ (∀ data len, scramble_default data len = scramble data len 0x1B)
      ∧ (∀ data len, descramble_default data len = descramble data len 0x1B)
      ∧ (∀ data len, descramble_default data len = scramble_default data len) :=
  ⟨fun _ _ _ => rfl, rfl, fun _ => rfl, fun _ _ => rfl, fun _ _ => rfl, fun _ _ => rfl⟩

end gr.ieee80211.utils

namespace gr.ieee80211

open wifi_stats_collector_impl

/-! ## Statistics collector: what each handler does to the counters and histories -/

theorem update_throughput_fields (s : wifi_stats_collector_impl) (now : Int) :
    (s.update_throughput now).d_rx_packets_total = s.d_rx_packets_total
      ∧ (s.update_throughput now).d_rx_packets_success = s.d_rx_packets_success
      ∧ (s.update_throughput now).d_rx_packets_error = s.d_rx_packets_error
      ∧ (s.update_throughput now).d_snr_history = s.d_snr_history
      ∧ (s.update_throughput now).d_rssi_history = s.d_rssi_history := by
  unfold update_throughput
  simp only
  split_ifs <;> simp

theorem add_length_fields (s : wifi_stats_collector_impl) (length : Option Int) :
    (s.add_length length).d_rx_packets_total = s.d_rx_packets_total
      ∧ (s.add_length length).d_rx_packets_success = s.d_rx_packets_success
      ∧ (s.add_length length).d_rx_packets_error = s.d_rx_packets_error
      ∧ (s.add_length length).d_snr_history = s.d_snr_history
      ∧ (s.add_length length).d_rssi_history = s.d_rssi_history := by
  cases length <;> simp [add_length]

theorem handle_rx_packet_fields (s : wifi_stats_collector_impl) (msg : pmt_msg)
    (now now_update : Int) :
    (s.handle_rx_packet msg now now_update).d_rx_packets_total = (s.d_rx_packets_total + 1) % UINT64_MOD
      ∧ (s.handle_rx_packet msg now now_update).d_rx_packets_success
          = (s.d_rx_packets_success + 1) % UINT64_MOD
      ∧ (s.handle_rx_packet msg now now_update).d_rx_packets_error = s.d_rx_packets_error
      ∧ (s.handle_rx_packet msg now now_update).d_snr_history = s.d_snr_history
      ∧ (s.handle_rx_packet msg now now_update).d_rssi_history = s.d_rssi_history := by
  unfold handle_rx_packet
  simp only
  obtain ⟨u1, u2, u3, u4, u5⟩ := update_throughput_fields
    (match msg with
      | .not_dict =>
          { s with d_rx_packets_total := (s.d_rx_packets_total + 1) % UINT64_MOD
                   d_rx_packets_success := (s.d_rx_packets_success + 1) % UINT64_MOD
                   d_last_packet_time := now }
      | .dict length rate _ _ =>
          match rate with
          | none => add_length
              { s with d_rx_packets_total := (s.d_rx_packets_total + 1) % UINT64_MOD
                       d_rx_packets_success := (s.d_rx_packets_success + 1) % UINT64_MOD
                       d_last_packet_time := now } length
          | some r =>
              { add_length
                  { s with d_rx_packets_total := (s.d_rx_packets_total + 1) % UINT64_MOD
                           d_rx_packets_success := (s.d_rx_packets_success + 1) % UINT64_MOD
                           d_last_packet_time := now } length
                with d_current_rate := wifi_rate_of_long r }) now_update
  rw [u1, u2, u3, u4, u5]
  cases msg with
  | not_dict => simp
  | dict length rate snr rssi =>
      obtain ⟨a1, a2, a3, a4, a5⟩ := add_length_fields
        { s with d_rx_packets_total := (s.d_rx_packets_total + 1) % UINT64_MOD
                 d_rx_packets_success := (s.d_rx_packets_success + 1) % UINT64_MOD
                 d_last_packet_time := now } length
      cases rate <;> simp [a1, a2, a3, a4, a5]

theorem handle_tx_packet_fields (s : wifi_stats_collector_impl) (msg : pmt_msg) :
    (s.handle_tx_packet msg).d_rx_packets_total = s.d_rx_packets_total
      ∧ (s.handle_tx_packet msg).d_rx_packets_success = s.d_rx_packets_success
      ∧ (s.handle_tx_packet msg).d_rx_packets_error = s.d_rx_packets_error
      ∧ (s.handle_tx_packet msg).d_snr_history = s.d_snr_history
      ∧ (s.handle_tx_packet msg).d_rssi_history = s.d_rssi_history := by
  cases msg with
  | not_dict => simp [handle_tx_packet]
  | dict length rate snr rssi =>
      obtain ⟨a1, a2, a3, a4, a5⟩ := add_length_fields
        { s with d_tx_packets_total := (s.d_tx_packets_total + 1) % UINT64_MOD } length
      simp [handle_tx_packet, a1, a2, a3, a4, a5]

theorem handle_signal_quality_counters (s : wifi_stats_collector_impl) (msg : pmt_msg) :
    (s.handle_signal_quality msg).d_rx_packets_total = s.d_rx_packets_total
      ∧ (s.handle_signal_quality msg).d_rx_packets_success = s.d_rx_packets_success
      ∧ (s.handle_signal_quality msg).d_rx_packets_error = s.d_rx_packets_error := by
  cases msg with
  | not_dict => simp [handle_signal_quality]
  | dict length rate snr rssi => cases snr <;> cases rssi <;> simp [handle_signal_quality]

end gr.ieee80211

namespace gr.ieee80211

open wifi_stats_collector_impl

/-! ## Statistics collector: invariants of the reachable states -/

theorem collector_run_snoc (interval : Int) (trace : List collector_event)
    (e : collector_event) :
    collector_run interval (trace ++ [e]) = collector_step (collector_run interval trace) e := by
  simp [collector_run, List.foldl_append]

theorem rx_counts_snoc (trace : List collector_event) (e : collector_event) :
    rx_counts (trace ++ [e])
      = match e with
        | .rx_packets _ _ _ => ((rx_counts trace).1 + 1, (rx_counts trace).2)
        | .rx_errors _ => ((rx_counts trace).1, (rx_counts trace).2 + 1)
        | .reset_stats _ => (0, 0)
        | _ => rx_counts trace := by
  simp only [rx_counts, List.foldl_append, List.foldl_cons, List.foldl_nil]

/-- The three rx counters are the unbounded message counts modulo `2^64`. -/
theorem rx_counters_invariant (interval : Int) (trace : List collector_event) :
    (collector_run interval trace).d_rx_packets_success = (rx_counts trace).1 % UINT64_MOD
      ∧ (collector_run interval trace).d_rx_packets_error = (rx_counts trace).2 % UINT64_MOD
      ∧ (collector_run interval trace).d_rx_packets_total
          = ((rx_counts trace).1 + (rx_counts trace).2) % UINT64_MOD := by
  induction trace using List.reverseRecOn with
  | nil => simp [collector_run, rx_counts, make, UINT64_MOD]
  | append_singleton t e ih =>
      obtain ⟨i1, i2, i3⟩ := ih
      rw [collector_run_snoc, rx_counts_snoc]
      cases e with
      | rx_packets msg now now_update =>
          obtain ⟨f1, f2, f3, _, _⟩ :=
            handle_rx_packet_fields (collector_run interval t) msg now now_update
          simp only [collector_step]
          rw [f1, f2, f3, i1, i2, i3]
          simp only [UINT64_MOD, Nat.reducePow]
          refine ⟨?_, ?_, ?_⟩ <;> first | trivial | omega
      | tx_packets msg =>
          obtain ⟨f1, f2, f3, _, _⟩ := handle_tx_packet_fields (collector_run interval t) msg
          simp only [collector_step]
          rw [f1, f2, f3, i1, i2, i3]
          exact ⟨rfl, rfl, rfl⟩
      | rx_errors msg =>
          simp only [collector_step, handle_rx_error]
          rw [i2, i3, i1]
          simp only [UINT64_MOD, Nat.reducePow]
          refine ⟨?_, ?_, ?_⟩ <;> first | trivial | omega
      | signal_quality msg =>
          obtain ⟨f1, f2, f3⟩ := handle_signal_quality_counters (collector_run interval t) msg
          simp only [collector_step]
          rw [f1, f2, f3, i1, i2, i3]
          exact ⟨rfl, rfl, rfl⟩
      | start now =>
          simp only [collector_step, start]
          exact ⟨i1, i2, i3⟩
      | reset_stats now =>
          simp [collector_step, reset_stats, UINT64_MOD]
      | set_update_interval ms =>
          simp only [collector_step, set_update_interval]
          exact ⟨i1, i2, i3⟩

end gr.ieee80211

namespace gr.ieee80211

open wifi_stats_collector_impl

/-! ## Statistics collector: verified properties -/

/-- What `reset_stats` does reset: right after it the report has the four
packet counters, the byte count, both throughputs, both averages and both
error rates at zero, whatever the state before. -/
theorem reset_stats_report (s : wifi_stats_collector_impl) (t now : Int) :
    ((s.reset_stats t).get_stats now).rx_packets_total = 0
      ∧ ((s.reset_stats t).get_stats now).rx_packets_success = 0
      ∧ ((s.reset_stats t).get_stats now).rx_packets_error = 0
      ∧ ((s.reset_stats t).get_stats now).tx_packets_total = 0
      ∧ ((s.reset_stats t).get_stats now).total_bytes = 0
      ∧ ((s.reset_stats t).get_stats now).throughput_current = 0
      ∧ ((s.reset_stats t).get_stats now).throughput_peak = 0
      ∧ ((s.reset_stats t).get_stats now).snr_average = 0
      ∧ ((s.reset_stats t).get_stats now).rssi_average = 0
      ∧ ((s.reset_stats t).get_stats now).per_current = 0
      ∧ ((s.reset_stats t).get_stats now).per_average = 0
      ∧ ((s.reset_stats t).get_stats now).snr_current = s.d_snr_current
      ∧ ((s.reset_stats t).get_stats now).rssi_current = s.d_rssi_current
      ∧ ((s.reset_stats t).get_stats now).current_rate = s.d_current_rate
      ∧ ((s.reset_stats t).get_stats now).current_modulation = s.d_current_modulation := by
  simp [reset_stats, get_stats, history_average]

/-- C13. `reset_stats` does not bring the report back to that of a new
collector: after one `signal_quality` message with SNR 10 and RSSI -40 and one
`rx_packets` message with rate 7, the report right after `reset_stats` still
has `snr_current` 10, `rssi_current` -40 and `current_rate` `OFDM_6M`, where a
new collector reports 0, 0 and `DSSS_1M_LONG`. -/
theorem reset_stats_keeps_current_values :
    ((collector_run 1000
        [.signal_quality (.dict none none (some 10) (some (-40))),
         .rx_packets (.dict (some 100) (some 7) none none) 5 6,
         .reset_stats 10]).get_stats 20).snr_current = 10
      ∧ ((collector_run 1000 []).get_stats 20).snr_current = 0
      ∧ ((collector_run 1000
        [.signal_quality (.dict none none (some 10) (some (-40))),
         .rx_packets (.dict (some 100) (some 7) none none) 5 6,
         .reset_stats 10]).get_stats 20).rssi_current = -40
      ∧ ((collector_run 1000 []).get_stats 20).rssi_current = 0
      ∧ ((collector_run 1000
        [.signal_quality (.dict none none (some 10) (some (-40))),
         .rx_packets (.dict (some 100) (some 7) none none) 5 6,
         .reset_stats 10]).get_stats 20).current_rate = wifi_rate.OFDM_6M
      ∧ ((collector_run 1000 []).get_stats 20).current_rate = wifi_rate.DSSS_1M_LONG := by
  refine ⟨rfl, rfl, rfl, rfl, ?_, rfl⟩
  decide

/-- C18. In every state reached from construction by messages and calls,
`rx_packets_total = rx_packets_success + rx_packets_error` modulo `2^64`, and a
`tx_packets` message changes none of the three rx counters. -/
theorem rx_total_is_success_plus_error (interval : Int) (trace : List collector_event) :
    (collector_run interval trace).d_rx_packets_total
        = ((collector_run interval trace).d_rx_packets_success
            + (collector_run interval trace).d_rx_packets_error) % UINT64_MOD
      ∧ ∀ (s : wifi_stats_collector_impl) (msg : pmt_msg),
          (s.handle_tx_packet msg).d_rx_packets_total = s.d_rx_packets_total
            ∧ (s.handle_tx_packet msg).d_rx_packets_success = s.d_rx_packets_success
            ∧ (s.handle_tx_packet msg).d_rx_packets_error = s.d_rx_packets_error := by
  obtain ⟨i1, i2, i3⟩ := rx_counters_invariant interval trace
  refine ⟨?_, fun s msg => ?_⟩
  · rw [i1, i2, i3]
    simp only [UINT64_MOD, Nat.reducePow]
    omega
  · obtain ⟨f1, f2, f3, _, _⟩ := handle_tx_packet_fields s msg
    exact ⟨f1, f2, f3⟩

end gr.ieee80211

namespace gr.ieee80211

/-! ## Rate names -/

theorem decimal_text_1 : decimal_text 1 = "1" := by
  decide

theorem decimal_text_2 : decimal_text 2 = "2" := by
  decide

theorem decimal_text_5_5 : decimal_text 5.5 = "5.5" := by
  have h1 : (5.5 : ℚ).num = 11 := by norm_num
  have h2 : (5.5 : ℚ).den = 2 := by norm_num
  simp only [decimal_text, h1, h2]
  decide

theorem decimal_text_11 : decimal_text 11 = "11" := by
  decide

theorem decimal_text_6 : decimal_text 6 = "6" := by
  decide

theorem decimal_text_9 : decimal_text 9 = "9" := by
  decide

theorem decimal_text_12 : decimal_text 12 = "12" := by
  decide

theorem decimal_text_18 : decimal_text 18 = "18" := by
  decide

theorem decimal_text_24 : decimal_text 24 = "24" := by
  decide

theorem decimal_text_36 : decimal_text 36 = "36" := by
  decide

theorem decimal_text_48 : decimal_text 48 = "48" := by
  decide

theorem decimal_text_54 : decimal_text 54 = "54" := by
  decide

theorem decimal_text_6_5 : decimal_text 6.5 = "6.5" := by
  have h1 : (6.5 : ℚ).num = 13 := by norm_num
  have h2 : (6.5 : ℚ).den = 2 := by norm_num
  simp only [decimal_text, h1, h2]
  decide

theorem decimal_text_13 : decimal_text 13 = "13" := by
  decide

theorem decimal_text_19_5 : decimal_text 19.5 = "19.5" := by
  have h1 : (19.5 : ℚ).num = 39 := by norm_num
  have h2 : (19.5 : ℚ).den = 2 := by norm_num
  simp only [decimal_text, h1, h2]
  decide

theorem decimal_text_26 : decimal_text 26 = "26" := by
  decide

theorem decimal_text_39 : decimal_text 39 = "39" := by
  decide

theorem decimal_text_52 : decimal_text 52 = "52" := by
  decide

theorem decimal_text_58_5 : decimal_text 58.5 = "58.5" := by
  have h1 : (58.5 : ℚ).num = 117 := by norm_num
  have h2 : (58.5 : ℚ).den = 2 := by norm_num
  simp only [decimal_text, h1, h2]
  decide

theorem decimal_text_65 : decimal_text 65 = "65" := by
  decide

theorem decimal_text_78 : decimal_text 78 = "78" := by
  decide

theorem decimal_text_86_7 : decimal_text (f32 86.7) = "86.7" := by
  have h1 : (11363942 / 131072 : ℚ).num = 5681971 := by norm_num
  have h2 : (11363942 / 131072 : ℚ).den = 65536 := by norm_num
  rw [f32_86_7]
  simp only [decimal_text, h1, h2]
  decide

/-- C15. For every declared wifi_rate, `get_rate_name` is the description of
its catalog entry, is not empty, and contains the decimal text of
`get_rate_mbps` followed by ` Mbps`. -/
theorem rate_name_contains_mbps (r : wifi_rate) :
    get_rate_name r = (get_rate_info r).map (fun i => i.description)
      ∧ (r ∈ wifi_rate.declared →
          ∃ name v, get_rate_name r = .ok name ∧ get_rate_mbps r = .ok v ∧ name ≠ ""
            ∧ (decimal_text v ++ " Mbps").toList <:+: name.toList) := by
  refine ⟨rfl, fun hd => ?_⟩
  obtain ⟨v⟩ := r
  obtain ⟨h0, h1⟩ := (mem_declared_iff _).mp hd
  simp only at h0 h1
  clear hd
  interval_cases v
  · exact ⟨"1 Mbps DBPSK (long preamble)", f32 1, rfl, rfl, by decide,
      by rw [f32_1, decimal_text_1]; decide⟩
  · exact ⟨"2 Mbps DQPSK (long preamble)", f32 2, rfl, rfl, by decide,
      by rw [f32_2, decimal_text_2]; decide⟩
  · exact ⟨"5.5 Mbps CCK (long preamble)", f32 5.5, rfl, rfl, by decide,
      by rw [f32_5_5, decimal_text_5_5]; decide⟩
  · exact ⟨"11 Mbps CCK (long preamble)", f32 11, rfl, rfl, by decide,
      by rw [f32_11, decimal_text_11]; decide⟩
  · exact ⟨"2 Mbps DQPSK (short preamble)", f32 2, rfl, rfl, by decide,
      by rw [f32_2, decimal_text_2]; decide⟩
  · exact ⟨"5.5 Mbps CCK (short preamble)", f32 5.5, rfl, rfl, by decide,
      by rw [f32_5_5, decimal_text_5_5]; decide⟩
  · exact ⟨"11 Mbps CCK (short preamble)", f32 11, rfl, rfl, by decide,
      by rw [f32_11, decimal_text_11]; decide⟩
  · exact ⟨"6 Mbps OFDM (BPSK 1/2)", f32 6, rfl, rfl, by decide,
      by rw [f32_6, decimal_text_6]; decide⟩
  · exact ⟨"9 Mbps OFDM (BPSK 3/4)", f32 9, rfl, rfl, by decide,
      by rw [f32_9, decimal_text_9]; decide⟩
  · exact ⟨"12 Mbps OFDM (QPSK 1/2)", f32 12, rfl, rfl, by decide,
      by rw [f32_12, decimal_text_12]; decide⟩
  · exact ⟨"18 Mbps OFDM (QPSK 3/4)", f32 18, rfl, rfl, by decide,
      by rw [f32_18, decimal_text_18]; decide⟩
  · exact ⟨"24 Mbps OFDM (16-QAM 1/2)", f32 24, rfl, rfl, by decide,
      by rw [f32_24, decimal_text_24]; decide⟩
  · exact ⟨"36 Mbps OFDM (16-QAM 3/4)", f32 36, rfl, rfl, by decide,
      by rw [f32_36, decimal_text_36]; decide⟩
  · exact ⟨"48 Mbps OFDM (64-QAM 2/3)", f32 48, rfl, rfl, by decide,
      by rw [f32_48, decimal_text_48]; decide⟩
  · exact ⟨"54 Mbps OFDM (64-QAM 3/4)", f32 54, rfl, rfl, by decide,
      by rw [f32_54, decimal_text_54]; decide⟩
  · exact ⟨"HT MCS0 6.5 Mbps (BPSK 1/2)", f32 6.5, rfl, rfl, by decide,
      by rw [f32_6_5, decimal_text_6_5]; decide⟩
  · exact ⟨"HT MCS1 13 Mbps (QPSK 1/2)", f32 13, rfl, rfl, by decide,
      by rw [f32_13, decimal_text_13]; decide⟩
  · exact ⟨"HT MCS2 19.5 Mbps (QPSK 3/4)", f32 19.5, rfl, rfl, by decide,
      by rw [f32_19_5, decimal_text_19_5]; decide⟩
  · exact ⟨"HT MCS3 26 Mbps (16-QAM 1/2)", f32 26, rfl, rfl, by decide,
      by rw [f32_26, decimal_text_26]; decide⟩
  · exact ⟨"HT MCS4 39 Mbps (16-QAM 3/4)", f32 39, rfl, rfl, by decide,
      by rw [f32_39, decimal_text_39]; decide⟩
  · exact ⟨"HT MCS5 52 Mbps (64-QAM 2/3)", f32 52, rfl, rfl, by decide,
      by rw [f32_52, decimal_text_52]; decide⟩
  · exact ⟨"HT MCS6 58.5 Mbps (64-QAM 3/4)", f32 58.5, rfl, rfl, by decide,
      by rw [f32_58_5, decimal_text_58_5]; decide⟩
  · exact ⟨"HT MCS7 65 Mbps (64-QAM 5/6)", f32 65, rfl, rfl, by decide,
      by rw [f32_65, decimal_text_65]; decide⟩
  · exact ⟨"VHT MCS0 6.5 Mbps (BPSK 1/2)", f32 6.5, rfl, rfl, by decide,
      by rw [f32_6_5, decimal_text_6_5]; decide⟩
  · exact ⟨"VHT MCS1 13 Mbps (QPSK 1/2)", f32 13, rfl, rfl, by decide,
      by rw [f32_13, decimal_text_13]; decide⟩
  · exact ⟨"VHT MCS2 19.5 Mbps (QPSK 3/4)", f32 19.5, rfl, rfl, by decide,
      by rw [f32_19_5, decimal_text_19_5]; decide⟩
  · exact ⟨"VHT MCS3 26 Mbps (16-QAM 1/2)", f32 26, rfl, rfl, by decide,
      by rw [f32_26, decimal_text_26]; decide⟩
  · exact ⟨"VHT MCS4 39 Mbps (16-QAM 3/4)", f32 39, rfl, rfl, by decide,
      by rw [f32_39, decimal_text_39]; decide⟩
  · exact ⟨"VHT MCS5 52 Mbps (64-QAM 2/3)", f32 52, rfl, rfl, by decide,
      by rw [f32_52, decimal_text_52]; decide⟩
  · exact ⟨"VHT MCS6 58.5 Mbps (64-QAM 3/4)", f32 58.5, rfl, rfl, by decide,
      by rw [f32_58_5, decimal_text_58_5]; decide⟩
  · exact ⟨"VHT MCS7 65 Mbps (64-QAM 5/6)", f32 65, rfl, rfl, by decide,
      by rw [f32_65, decimal_text_65]; decide⟩
  · exact ⟨"VHT MCS8 78 Mbps (256-QAM 3/4)", f32 78, rfl, rfl, by decide,
      by rw [f32_78, decimal_text_78]; decide⟩
  · exact ⟨"VHT MCS9 86.7 Mbps (256-QAM 5/6)", f32 86.7, rfl, rfl, by decide,
      by rw [decimal_text_86_7]; decide⟩

/-- The name of `DSSS_1M_LONG`, the rate `test_rate_names` looks at, contains
`1 Mbps`. -/
theorem rate_name_contains_mbps_witness :
    ∃ name v, get_rate_name wifi_rate.DSSS_1M_LONG = .ok name
      ∧ get_rate_mbps wifi_rate.DSSS_1M_LONG = .ok v ∧ name ≠ ""
      ∧ (decimal_text v ++ " Mbps").toList <:+: name.toList :=
  (rate_name_contains_mbps wifi_rate.DSSS_1M_LONG).2 (by decide)

end gr.ieee80211
